import Mathlib

/-!
# Pogodoc Go SDK: template and render orchestration

A shallow embedding of `pogodoc.go` and `utils.go`.

* Everything the orchestration reaches outside itself (the generated service
  client `c.Templates` / `c.Documents`, `net/http`, `fmt.Sprint` on the opaque
  data value) is a field of `Env`, a deterministic handler over an abstract
  world state `σ`.
* Every external call, and every `time.Sleep`, is also appended, with its
  arguments and its answer, to the `trace` of the `World`, so that theorems can
  speak about which calls were made, in which order, with which arguments.
* A PUT is recorded as the `http.Request` value handed to `client.Do`. The
  header fields it carries when `net/http` sends it are `Request.sent`: the
  `Content-Length` field is written from `req.ContentLength`, which
  `http.NewRequest` sets to the length of the body, and the `Content-Length`
  entry of `req.Header` is not copied.
* A Go result pair `(*T, error)` is a pair `Option T × Option Error`
  (`none` is `nil`); dereferencing a `nil` pointer is the outcome `panic`.
* Opaque structured values (`SampleData`, `Data`) are values of a type
  parameter `δ`.
-/

set_option maxRecDepth 100000

namespace Pogodoc

/-! ## Data model -/

/-- The text of a Go `error` (what `%v` prints). -/
abbrev Error := String

deriving instance DecidableEq for Except

/-- A Go `[]byte`, and equally a Go `string` whose bytes are taken. -/
abbrev Bytes := List (Fin 256)

/-- Result of a Go function that may dereference a nil pointer. -/
inductive Outcome (α : Type) where
  | ret (a : α)
  | panic
deriving DecidableEq

/-- The struct `FileStreamProps`: the payload and its declared length (Go `int`). -/
structure FileStreamProps where
  payload : Bytes
  payloadLength : Int
deriving DecidableEq

/-- The map `http.Header`, restricted to single-valued keys, in insertion order. -/
abbrev Header := List (String × String)

/-- The Go method `http.Header.Set`: replaces the values of the key. -/
def Header.Set (h : Header) (key value : String) : Header :=
  h.filter (fun kv => kv.1 ≠ key) ++ [(key, value)]

/-- The Go method `http.Header.Get`. -/
def Header.Get (h : Header) (key : String) : Option String :=
  (h.find? (fun kv => kv.1 = key)).map Prod.snd

/-- The part of `http.Request` that `UploadToS3WithURL` determines.
`ContentLength` is the field of that name, which `http.NewRequest` fills in. -/
structure Request where
  Method : String
  URL : String
  Header : Header
  Body : Bytes
  ContentLength : Int
deriving DecidableEq

/-- The table `reqWriteExcludeHeader` of `net/http`: the keys of `req.Header` that
are not copied to the wire, because `net/http` writes these fields itself. -/
def reqWriteExcludeHeader : List String :=
  ["Host", "User-Agent", "Content-Length", "Transfer-Encoding", "Trailer"]

/-- The header fields that a request with a body of known length carries when
`net/http` sends it: `Content-Length` is written from `req.ContentLength`, then
the entries of `req.Header` follow, except the keys of `reqWriteExcludeHeader`.
The fields `Host` and `User-Agent`, which `net/http` writes from the URL and
from its own default, are left out. -/
def Request.sent (req : Request) : Pogodoc.Header :=
  ("Content-Length", toString req.ContentLength) ::
    req.Header.filter (fun kv => kv.1 ∉ reqWriteExcludeHeader)

/-- The part of `http.Response` that `UploadToS3WithURL` reads: the numeric
status code and the status text, such as `403` and `"403 Forbidden"`. -/
structure Response where
  StatusCode : Nat
  Status : String
deriving DecidableEq

/-- In `net/http` the status text of a response starts with its decimal code. -/
def Response.WellFormed (r : Response) : Prop :=
  (toString r.StatusCode).data <+: r.Status.data

instance (r : Response) : Decidable r.WellFormed := by
  unfold Response.WellFormed; infer_instance

structure InitializeTemplateCreationResponse where
  TemplateId : String
  PresignedTemplateUploadUrl : String
deriving DecidableEq

structure GenerateTemplatePreviewsRequest (δ : Type) where
  Type_ : String
  Data : δ
deriving DecidableEq

structure PreviewJob where
  JobId : String
deriving DecidableEq

structure GenerateTemplatePreviewsResponse where
  PngPreview : PreviewJob
  PdfPreview : PreviewJob
deriving DecidableEq

structure SaveCreatedTemplateRequestTemplateInfo (δ : Type) where
  Title : String
  Description : String
  Categories : List String
  Type_ : String
  SourceCode : Option String
  SampleData : δ
deriving DecidableEq

structure SaveCreatedTemplateRequestPreviewIds where
  PngJobId : String
  PdfJobId : String
deriving DecidableEq

structure SaveCreatedTemplateRequest (δ : Type) where
  TemplateInfo : SaveCreatedTemplateRequestTemplateInfo δ
  PreviewIds : SaveCreatedTemplateRequestPreviewIds
deriving DecidableEq

structure UpdateTemplateRequestTemplateInfo (δ : Type) where
  Title : String
  Type_ : String
  Description : String
  Categories : List String
  SourceCode : Option String
  SampleData : δ
deriving DecidableEq

structure UpdateTemplateRequestPreviewIds where
  PngJobId : String
  PdfJobId : String
deriving DecidableEq

structure UpdateTemplateRequest (δ : Type) where
  TemplateInfo : UpdateTemplateRequestTemplateInfo δ
  PreviewIds : UpdateTemplateRequestPreviewIds
  ContentId : String
deriving DecidableEq

structure InitializeRenderJobRequest (δ : Type) where
  TemplateId : Option String
  Type_ : String
  Target : String
  Data : δ
deriving DecidableEq

structure InitializeRenderJobResponse where
  JobId : String
  PresignedDataUploadUrl : Option String
  PresignedTemplateUploadUrl : Option String
deriving DecidableEq

structure StartRenderJobRequest where
  ShouldWaitForRenderCompletion : Option Bool
deriving DecidableEq

structure StartRenderJobResponse where
  JobId : String
deriving DecidableEq

/-- The status answer; `Status` is a `*string` in the source (it is read as
`*jobStatus.Status`), `Output` stands for the rest of the answer. -/
structure GetJobStatusResponse where
  Status : Option String
  Output : Option String
deriving DecidableEq

/-- The struct `GenerateDocumentProps`; `template` is a Go `string`, kept as its bytes. -/
structure GenerateDocumentProps (δ : Type) where
  InitializeRenderJobRequest : InitializeRenderJobRequest δ
  StartRenderJobRequest : StartRenderJobRequest
  template : Bytes
deriving DecidableEq

/-! ## The world outside the orchestration -/

/-- One external call, with its arguments and its answer. -/
inductive Event (δ : Type) where
  | InitializeTemplateCreation
      (res : Option InitializeTemplateCreationResponse × Option Error)
  | Put (req : Request) (res : Except Error Response)
  | ExtractTemplateFiles (templateId : String) (err : Option Error)
  | GenerateTemplatePreviews (templateId : String) (req : GenerateTemplatePreviewsRequest δ)
      (res : Option GenerateTemplatePreviewsResponse × Option Error)
  | SaveCreatedTemplate (templateId : String) (req : SaveCreatedTemplateRequest δ)
      (err : Option Error)
  | UpdateTemplate (templateId : String) (req : UpdateTemplateRequest δ) (err : Option Error)
  | InitializeRenderJob (req : InitializeRenderJobRequest δ)
      (res : Option InitializeRenderJobResponse × Option Error)
  | StartRenderJob (jobId : String) (req : StartRenderJobRequest)
      (res : Option StartRenderJobResponse × Option Error)
  | GetJobStatus (jobId : String) (res : Option GetJobStatusResponse × Option Error)
  | Sleep (ms : Nat)
deriving DecidableEq

/-- The value `context.Context` handed through to the service client: whether it
is done depends on the state of the world. -/
structure Context (σ : Type) where
  Err : σ → Option Error

/-- The service client field `c.Templates` (generated code, outside `src/`). -/
structure TemplatesClient (δ σ : Type) where
  InitializeTemplateCreation : Context σ → σ →
    (Option InitializeTemplateCreationResponse × Option Error) × σ
  ExtractTemplateFiles : Context σ → String → σ → Option Error × σ
  GenerateTemplatePreviews : Context σ → String → GenerateTemplatePreviewsRequest δ → σ →
    (Option GenerateTemplatePreviewsResponse × Option Error) × σ
  SaveCreatedTemplate : Context σ → String → SaveCreatedTemplateRequest δ → σ → Option Error × σ
  /-- The response value of `UpdateTemplate` is discarded by its only caller. -/
  UpdateTemplate : Context σ → String → UpdateTemplateRequest δ → σ → Option Error × σ

/-- The service client field `c.Documents` (generated code, outside `src/`). -/
structure DocumentsClient (δ σ : Type) where
  InitializeRenderJob : Context σ → InitializeRenderJobRequest δ → σ →
    (Option InitializeRenderJobResponse × Option Error) × σ
  StartRenderJob : Context σ → String → StartRenderJobRequest → σ →
    (Option StartRenderJobResponse × Option Error) × σ
  GetJobStatus : Context σ → String → σ → (Option GetJobStatusResponse × Option Error) × σ

/-- The external collaborators of the orchestration layer. -/
structure Env (δ σ : Type) where
  Templates : TemplatesClient δ σ
  Documents : DocumentsClient δ σ
  /-- The error of `url.Parse` inside `http.NewRequest`, `none` for a URL that parses. -/
  parseURL : String → Option Error
  /-- The call `(&http.Client{}).Do(req)`: a transport error or a response. -/
  Do : Request → σ → Except Error Response × σ
  /-- The call `fmt.Sprint(data)` on the opaque data value, as the bytes of its result. -/
  Sprint : δ → Bytes

/-- The state of the outside world and the calls made so far, oldest first. -/
structure World (δ σ : Type) where
  st : σ
  trace : List (Event δ)

/-- Append one event to the trace. -/
def World.log {δ σ : Type} (w : World δ σ) (s : σ) (e : Event δ) : World δ σ :=
  { st := s, trace := w.trace ++ [e] }

variable {δ σ : Type}

/-! ### External calls, traced -/

def Templates.InitializeTemplateCreation (c : Env δ σ) (ctx : Context σ) (w : World δ σ) :
    (Option InitializeTemplateCreationResponse × Option Error) × World δ σ :=
  let r := c.Templates.InitializeTemplateCreation ctx w.st
  (r.1, w.log r.2 (.InitializeTemplateCreation r.1))

def Templates.ExtractTemplateFiles (c : Env δ σ) (ctx : Context σ) (templateId : String)
    (w : World δ σ) : Option Error × World δ σ :=
  let r := c.Templates.ExtractTemplateFiles ctx templateId w.st
  (r.1, w.log r.2 (.ExtractTemplateFiles templateId r.1))

def Templates.GenerateTemplatePreviews (c : Env δ σ) (ctx : Context σ) (templateId : String)
    (req : GenerateTemplatePreviewsRequest δ) (w : World δ σ) :
    (Option GenerateTemplatePreviewsResponse × Option Error) × World δ σ :=
  let r := c.Templates.GenerateTemplatePreviews ctx templateId req w.st
  (r.1, w.log r.2 (.GenerateTemplatePreviews templateId req r.1))

def Templates.SaveCreatedTemplate (c : Env δ σ) (ctx : Context σ) (templateId : String)
    (req : SaveCreatedTemplateRequest δ) (w : World δ σ) : Option Error × World δ σ :=
  let r := c.Templates.SaveCreatedTemplate ctx templateId req w.st
  (r.1, w.log r.2 (.SaveCreatedTemplate templateId req r.1))

def Templates.UpdateTemplate (c : Env δ σ) (ctx : Context σ) (templateId : String)
    (req : UpdateTemplateRequest δ) (w : World δ σ) : Option Error × World δ σ :=
  let r := c.Templates.UpdateTemplate ctx templateId req w.st
  (r.1, w.log r.2 (.UpdateTemplate templateId req r.1))

def Documents.InitializeRenderJob (c : Env δ σ) (ctx : Context σ)
    (req : InitializeRenderJobRequest δ) (w : World δ σ) :
    (Option InitializeRenderJobResponse × Option Error) × World δ σ :=
  let r := c.Documents.InitializeRenderJob ctx req w.st
  (r.1, w.log r.2 (.InitializeRenderJob req r.1))

def Documents.StartRenderJob (c : Env δ σ) (ctx : Context σ) (jobId : String)
    (req : StartRenderJobRequest) (w : World δ σ) :
    (Option StartRenderJobResponse × Option Error) × World δ σ :=
  let r := c.Documents.StartRenderJob ctx jobId req w.st
  (r.1, w.log r.2 (.StartRenderJob jobId req r.1))

def Documents.GetJobStatus (c : Env δ σ) (ctx : Context σ) (jobId : String) (w : World δ σ) :
    (Option GetJobStatusResponse × Option Error) × World δ σ :=
  let r := c.Documents.GetJobStatus ctx jobId w.st
  (r.1, w.log r.2 (.GetJobStatus jobId r.1))

/-- The call `time.Sleep`, in milliseconds. -/
def Sleep (ms : Nat) (w : World δ σ) : World δ σ :=
  w.log w.st (.Sleep ms)

/-- The call `http.NewRequest(method, url, bytes.NewBuffer(body))`; it fails only
when the URL does not parse (the method is always the valid `"PUT"`). For a
`*bytes.Buffer` body it sets `req.ContentLength` to the length of the buffer. -/
def NewRequest (c : Env δ σ) (method url : String) (body : Bytes) : Except Error Request :=
  match c.parseURL url with
  | some err => .error err
  | none =>
    .ok { Method := method, URL := url, Header := [], Body := body,
          ContentLength := body.length }

/-- The call `client.Do(req)`: the one place where a request leaves the process. -/
def ClientDo (c : Env δ σ) (req : Request) (w : World δ σ) : Except Error Response × World δ σ :=
  let r := c.Do req w.st
  (r.1, w.log r.2 (.Put req r.1))

/-- The constant `http.StatusOK`. -/
def StatusOK : Nat := 200

/-! ## utils.go -/

/-- The function `UploadToS3WithURL` of `utils.go`. -/
def UploadToS3WithURL (c : Env δ σ) (predsignedURL : String) (fsProps : FileStreamProps)
    (contentType : String) (w : World δ σ) : Option Error × World δ σ :=
  let headers : Header := []
  if contentType ≠ "" then
    let headers := headers.Set "Content-Type" contentType
    if fsProps.payloadLength > 0 then
      let headers := headers.Set "Content-Length" (toString fsProps.payloadLength)
      match NewRequest c "PUT" predsignedURL fsProps.payload with
      | .error err => (some ("creating request: " ++ err), w)
      | .ok req =>
        let req := { req with Header := headers }
        match ClientDo c req w with
        | (.error err, w) => (some ("uploading file: " ++ err), w)
        | (.ok resp, w) =>
          if resp.StatusCode ≠ StatusOK then
            (some ("uploading file: " ++ resp.Status), w)
          else
            (none, w)
    else
      (some " Content-Length is empty", w)
  else
    (some " Content-Type is empty", w)

/-! ## pogodoc.go -/

/-- The method `SaveTemplateFromFileStream` of `pogodoc.go`. -/
def SaveTemplateFromFileStream (c : Env δ σ) (fsProps : FileStreamProps)
    (metadata : SaveCreatedTemplateRequestTemplateInfo δ) (ctx : Context σ) (w : World δ σ) :
    Outcome (String × Option Error) × World δ σ :=
  match Templates.InitializeTemplateCreation c ctx w with
  | ((_, some err), w) => (.ret ("", some ("initializing template creation: " ++ err)), w)
  | ((none, none), w) => (.panic, w)
  | ((some response, none), w) =>
    let templateId := response.TemplateId
    match UploadToS3WithURL c response.PresignedTemplateUploadUrl fsProps "application/zip" w with
    | (some err, w) => (.ret ("", some ("uploading template: " ++ err)), w)
    | (none, w) =>
      match Templates.ExtractTemplateFiles c ctx templateId w with
      | (some err, w) => (.ret ("", some ("extracting template files: " ++ err)), w)
      | (none, w) =>
        let request : GenerateTemplatePreviewsRequest δ :=
          { Type_ := metadata.Type_, Data := metadata.SampleData }
        match Templates.GenerateTemplatePreviews c ctx templateId request w with
        | ((_, some err), w) => (.ret ("", some ("generating template previews: " ++ err)), w)
        | ((none, none), w) => (.panic, w)
        | ((some previewResponse, none), w) =>
          let previewPng := previewResponse.PngPreview.JobId
          let previewPdf := previewResponse.PdfPreview.JobId
          let saveCreatedTemplateRequest : SaveCreatedTemplateRequest δ :=
            { TemplateInfo :=
                { Title := metadata.Title
                  Description := metadata.Description
                  Categories := metadata.Categories
                  Type_ := metadata.Type_
                  SourceCode := metadata.SourceCode
                  SampleData := metadata.SampleData }
              PreviewIds := { PngJobId := previewPng, PdfJobId := previewPdf } }
          match Templates.SaveCreatedTemplate c ctx templateId saveCreatedTemplateRequest w with
          | (some err, w) => (.ret ("", some ("saving created template: " ++ err)), w)
          | (none, w) => (.ret (templateId, none), w)

/-- The method `UpdateTemplateFromFileStream` of `pogodoc.go`. -/
def UpdateTemplateFromFileStream (c : Env δ σ) (templateId : String) (fsProps : FileStreamProps)
    (metadata : UpdateTemplateRequestTemplateInfo δ) (ctx : Context σ) (w : World δ σ) :
    Outcome (String × Option Error) × World δ σ :=
  match Templates.InitializeTemplateCreation c ctx w with
  | ((_, some err), w) => (.ret ("", some ("initializing template creation: " ++ err)), w)
  | ((none, none), w) => (.panic, w)
  | ((some response, none), w) =>
    let contentId := response.TemplateId
    match UploadToS3WithURL c response.PresignedTemplateUploadUrl fsProps "application/zip" w with
    | (some err, w) => (.ret ("", some ("uploading template: " ++ err)), w)
    | (none, w) =>
      match Templates.ExtractTemplateFiles c ctx contentId w with
      | (some err, w) => (.ret ("", some ("extracting template files: " ++ err)), w)
      | (none, w) =>
        let request : GenerateTemplatePreviewsRequest δ :=
          { Type_ := metadata.Type_, Data := metadata.SampleData }
        match Templates.GenerateTemplatePreviews c ctx contentId request w with
        | ((_, some err), w) => (.ret ("", some ("generating template previews: " ++ err)), w)
        | ((none, none), w) => (.panic, w)
        | ((some previewResponse, none), w) =>
          let updateTemplateReq : UpdateTemplateRequest δ :=
            { TemplateInfo :=
                { Title := metadata.Title
                  Type_ := metadata.Type_
                  Description := metadata.Description
                  Categories := metadata.Categories
                  SourceCode := metadata.SourceCode
                  SampleData := metadata.SampleData }
              PreviewIds :=
                { PngJobId := previewResponse.PngPreview.JobId
                  PdfJobId := previewResponse.PdfPreview.JobId }
              ContentId := contentId }
          match Templates.UpdateTemplate c ctx templateId updateTemplateReq w with
          | (some err, w) => (.ret ("", some ("updating template: " ++ err)), w)
          | (none, w) => (.ret (templateId, none), w)

/-- The method `StartGenerateDocument` of `pogodoc.go`. The three reads of
`initResponse` are kept apart: the first is guarded by `initResponse != nil`, the
second and the third (`initResponse.PresignedTemplateUploadUrl`,
`initResponse.JobId`) are not. -/
def StartGenerateDocument (c : Env δ σ) (gdProps : GenerateDocumentProps δ) (ctx : Context σ)
    (w : World δ σ) : Outcome (Option StartRenderJobResponse × Option Error) × World δ σ :=
  let initRequest := gdProps.InitializeRenderJobRequest
  match Documents.InitializeRenderJob c ctx initRequest w with
  | ((_, some err), w) => (.ret (none, some ("initializing document render: " ++ err)), w)
  | ((initResponse, none), w) =>
    let Data := c.Sprint gdProps.InitializeRenderJobRequest.Data
    let dataUpload : Option Error × World δ σ :=
      match initResponse with
      | none => (none, w)
      | some r =>
        match r.PresignedDataUploadUrl with
        | none => (none, w)
        | some url =>
          UploadToS3WithURL c url { payload := Data, payloadLength := Data.length }
            "application/json" w
    match dataUpload with
    | (some err, w) => (.ret (none, some ("uploading document: " ++ err)), w)
    | (none, w) =>
      let template := gdProps.template
      let templateUpload : Outcome (Option Error) × World δ σ :=
        if template ≠ [] then
          match initResponse with
          | none => (.panic, w)
          | some r =>
            match r.PresignedTemplateUploadUrl with
            | none => (.ret none, w)
            | some url =>
              let u := UploadToS3WithURL c url
                { payload := template, payloadLength := template.length } "text/html" w
              (.ret u.1, u.2)
        else (.ret none, w)
      match templateUpload with
      | (.panic, w) => (.panic, w)
      | (.ret (some err), w) => (.ret (none, some ("uploading document: " ++ err)), w)
      | (.ret none, w) =>
        match initResponse with
        | none => (.panic, w)
        | some r =>
          match Documents.StartRenderJob c ctx r.JobId gdProps.StartRenderJobRequest w with
          | ((_, some err), w) => (.ret (none, some ("starting render: " ++ err)), w)
          | ((result, none), w) => (.ret (result, none), w)

/-- The loop `for range maxAttempts` of `PollForJobCompletion`, with the number of
iterations still to run; `none` when the loop runs to its end without returning. -/
def pollLoop (c : Env δ σ) (jobId : String) (ctx : Context σ) (intervalMs : Nat) :
    Nat → World δ σ → Option (Outcome (Option GetJobStatusResponse × Option Error)) × World δ σ
  | 0, w => (none, w)
  | n + 1, w =>
    match Documents.GetJobStatus c ctx jobId w with
    | ((_, some err), w) => (some (.ret (none, some ("getting job status: " ++ err))), w)
    | ((none, none), w) => (some .panic, w)
    | ((some jobStatus, none), w) =>
      match jobStatus.Status with
      | none => (some .panic, w)
      | some status =>
        if status = "done" then (some (.ret (some jobStatus, none)), w)
        else pollLoop c jobId ctx intervalMs n (Sleep intervalMs w)

/-- The method `PollForJobCompletion` of `pogodoc.go`. -/
def PollForJobCompletion (c : Env δ σ) (jobId : String) (ctx : Context σ) (w : World δ σ) :
    Outcome (Option GetJobStatusResponse × Option Error) × World δ σ :=
  let maxAttempts := 60
  let intervalMs := 500
  let w := Sleep 1000 w
  match pollLoop c jobId ctx intervalMs maxAttempts w with
  | (some out, w) => (out, w)
  | (none, w) => (.ret (none, some ("job " ++ jobId ++ " not found")), w)

/-- The method `GenerateDocument` of `pogodoc.go`. -/
def GenerateDocument (c : Env δ σ) (gdProps : GenerateDocumentProps δ) (ctx : Context σ)
    (w : World δ σ) : Outcome (Option GetJobStatusResponse × Option Error) × World δ σ :=
  match StartGenerateDocument c gdProps ctx w with
  | (.panic, w) => (.panic, w)
  | (.ret (_, some err), w) => (.ret (none, some ("starting document generation: " ++ err)), w)
  | (.ret (none, none), w) => (.panic, w)
  | (.ret (some initResponse, none), w) => PollForJobCompletion c initResponse.JobId ctx w

/-! ## Vocabulary of the statements -/

/-- The request that `UploadToS3WithURL` hands to `client.Do` when its checks pass:
the headers are the two `headers.Set` calls, the body is `fsProps.payload`, and
`ContentLength` is what `http.NewRequest` computed from the body. -/
def putRequest (url : String) (fsProps : FileStreamProps) (contentType : String) : Request :=
  { Method := "PUT", URL := url,
    Header := [("Content-Type", contentType), ("Content-Length", toString fsProps.payloadLength)],
    Body := fsProps.payload,
    ContentLength := fsProps.payload.length }

/-- The file stream value that `StartGenerateDocument` builds for the input data. -/
def dataProps (c : Env δ σ) (gdProps : GenerateDocumentProps δ) : FileStreamProps :=
  { payload := c.Sprint gdProps.InitializeRenderJobRequest.Data,
    payloadLength := (c.Sprint gdProps.InitializeRenderJobRequest.Data).length }

/-- The file stream value that `StartGenerateDocument` builds for the inline template. -/
def templateProps (gdProps : GenerateDocumentProps δ) : FileStreamProps :=
  { payload := gdProps.template, payloadLength := gdProps.template.length }

/-- The text `t` occurs in the text `s`. -/
def Contains (s t : String) : Prop := t.data <:+: s.data

instance (s t : String) : Decidable (Contains s t) := by
  unfold Contains; infer_instance

/-- Is the event a `GetJobStatus` query? -/
def Event.isStatusQuery : Event δ → Bool
  | .GetJobStatus _ _ => true
  | _ => false

/-- Is the event a `StartRenderJob` call? -/
def Event.isStartRenderJob : Event δ → Bool
  | .StartRenderJob _ _ _ => true
  | _ => false

/-- Is the event a PUT? -/
def Event.isPut : Event δ → Bool
  | .Put _ _ => true
  | _ => false

/-- Number of `GetJobStatus` queries in a trace. -/
def queries (t : List (Event δ)) : Nat := t.countP Event.isStatusQuery

/-- State of the service after the first `i` status queries for `jobId`, started in `s`. -/
def statusState (c : Env δ σ) (ctx : Context σ) (jobId : String) : Nat → σ → σ
  | 0, s => s
  | i + 1, s => statusState c ctx jobId i (c.Documents.GetJobStatus ctx jobId s).2

/-- Answer of the service to status query number `i + 1` for `jobId`, started in `s`. -/
def statusAnswer (c : Env δ σ) (ctx : Context σ) (jobId : String) (i : Nat) (s : σ) :
    Option GetJobStatusResponse × Option Error :=
  (c.Documents.GetJobStatus ctx jobId (statusState c ctx jobId i s)).1

/-- The answer is a status response, without error, that carries a status other
than `"done"`. -/
def notDone (a : Option GetJobStatusResponse × Option Error) : Bool :=
  match a with
  | (some r, none) =>
    match r.Status with
    | some st => decide (st ≠ "done")
    | none => false
  | _ => false

/-- The answer is a status response, without error, with status `st`. -/
def hasStatus (a : Option GetJobStatusResponse × Option Error) (st : String) : Bool :=
  match a with
  | (some r, none) => decide (r.Status = some st)
  | _ => false

/-- The events of `n` rounds of the poll loop that do not end it: a query, then
the sleep of `intervalMs`. -/
def pollEvents (c : Env δ σ) (ctx : Context σ) (jobId : String) (intervalMs : Nat) :
    Nat → σ → List (Event δ)
  | 0, _ => []
  | n + 1, s =>
    .GetJobStatus jobId (c.Documents.GetJobStatus ctx jobId s).1 :: .Sleep intervalMs ::
      pollEvents c ctx jobId intervalMs n (c.Documents.GetJobStatus ctx jobId s).2

/-! ## Scripted services for the end-to-end scenarios -/

/-- A service that answers every call successfully: template creation yields
`initId` and the upload URL `"https://store/upload"`, previews yield `png-1` and
`pdf-1`, render jobs are `job-7` with both upload URLs, every PUT is answered by
`put`, and status query number `i + 1` reports `statuses[i]` (`"running"` past
the end of the list). The state counts the status queries. -/
def scenario (initId : String) (put : Response) (statuses : List String) : Env String Nat where
  Templates :=
    { InitializeTemplateCreation := fun _ s =>
        ((some { TemplateId := initId, PresignedTemplateUploadUrl := "https://store/upload" },
          none), s)
      ExtractTemplateFiles := fun _ _ s => (none, s)
      GenerateTemplatePreviews := fun _ _ _ s =>
        ((some { PngPreview := { JobId := "png-1" }, PdfPreview := { JobId := "pdf-1" } },
          none), s)
      SaveCreatedTemplate := fun _ _ _ s => (none, s)
      UpdateTemplate := fun _ _ _ s => (none, s) }
  Documents :=
    { InitializeRenderJob := fun _ _ s =>
        ((some { JobId := "job-7", PresignedDataUploadUrl := some "https://store/data",
                 PresignedTemplateUploadUrl := some "https://store/template" }, none), s)
      StartRenderJob := fun _ jobId _ s => ((some { JobId := jobId }, none), s)
      GetJobStatus := fun _ _ s =>
        ((some { Status := some (statuses.getD s "running"), Output := none }, none), s + 1) }
  parseURL := fun _ => none
  Do := fun _ s => (.ok put, s)
  Sprint := fun d => d.toList.map (fun ch => Fin.ofNat ch.toNat)

/-- The answer `200 OK`. -/
def ok200 : Response := { StatusCode := 200, Status := "200 OK" }

/-- The answer `403 Forbidden`. -/
def forbidden403 : Response := { StatusCode := 403, Status := "403 Forbidden" }

/-- A context that is never cancelled, `context.Background()`. -/
def background : Context Nat := { Err := fun _ => none }

/-- The empty world in which the scenarios start. -/
def world0 : World String Nat := { st := 0, trace := [] }

/-- The payload of scenario S1: eight bytes starting with the zip signature. -/
def zip8 : FileStreamProps := { payload := [80, 75, 3, 4, 0, 0, 0, 0], payloadLength := 8 }

/-- The metadata of scenario S1. -/
def metaS1 : SaveCreatedTemplateRequestTemplateInfo String :=
  { Title := "T", Description := "D", Categories := ["invoice"], Type_ := "react",
    SourceCode := none, SampleData := "a:1" }

/-- The metadata of scenario S3. -/
def metaS3 : UpdateTemplateRequestTemplateInfo String :=
  { Title := "T", Type_ := "react", Description := "D", Categories := ["invoice"],
    SourceCode := some "SORSKODE", SampleData := "a:1" }

/-- The render spec of scenario S5: data `name: John Doe`, inline template `<p>hi</p>`. -/
def specS5 : GenerateDocumentProps String :=
  { InitializeRenderJobRequest :=
      { TemplateId := some "tpl-1", Type_ := "html", Target := "pdf", Data := "John Doe" }
    StartRenderJobRequest := { ShouldWaitForRenderCompletion := none }
    template := [60, 112, 62, 104, 105, 60, 47, 112, 62] }

/-- A file stream value whose declared length differs from its three bytes. -/
def mismatched : FileStreamProps := { payload := [1, 2, 3], payloadLength := 9 }

/-! ## A service whose client honours the context -/

/-- A context that is done once `n` requests have been answered: its `Err()` is
`context canceled` in every state `s` with `n ≤ s`, and nil before.
`cancelledAfter 0` is cancelled before the first step. -/
def cancelledAfter (n : Nat) : Context Nat :=
  { Err := fun s => if n ≤ s then some "context canceled" else none }

/-- How a client that honours the context answers a call: when the context is
done the call returns the error of the context and no request reaches the
service (the state stays as it was); otherwise the request is sent. -/
def honour {α : Type} (ctx : Context Nat) (s : Nat) (cancelled : Error → α) (sent : α) :
    α × Nat :=
  match ctx.Err s with
  | some err => (cancelled err, s)
  | none => (sent, s + 1)

/-- A service whose state is a clock, the number of requests that have reached
the service or the object store. Its client honours the context on every call
that takes one, as `honour` describes, and otherwise answers as `scenario` does
(template `tpl-1`, job `job-7` with both upload URLs, status `"running"`). A
PUT is handed no context: it reaches the store, is answered by `put`, and
advances the clock. -/
def clockService (put : Response) : Env String Nat where
  Templates :=
    { InitializeTemplateCreation := fun ctx s =>
        honour ctx s (fun err => (none, some err))
          (some { TemplateId := "tpl-1", PresignedTemplateUploadUrl := "https://store/upload" },
            none)
      ExtractTemplateFiles := fun ctx _ s => honour ctx s some none
      GenerateTemplatePreviews := fun ctx _ _ s =>
        honour ctx s (fun err => (none, some err))
          (some { PngPreview := { JobId := "png-1" }, PdfPreview := { JobId := "pdf-1" } }, none)
      SaveCreatedTemplate := fun ctx _ _ s => honour ctx s some none
      UpdateTemplate := fun ctx _ _ s => honour ctx s some none }
  Documents :=
    { InitializeRenderJob := fun ctx _ s =>
        honour ctx s (fun err => (none, some err))
          (some { JobId := "job-7", PresignedDataUploadUrl := some "https://store/data",
                  PresignedTemplateUploadUrl := some "https://store/template" }, none)
      StartRenderJob := fun ctx jobId _ s =>
        honour ctx s (fun err => (none, some err)) (some { JobId := jobId }, none)
      GetJobStatus := fun ctx _ s =>
        honour ctx s (fun err => (none, some err))
          (some { Status := some "running", Output := none }, none) }
  parseURL := fun _ => none
  Do := fun _ s => (.ok put, s + 1)
  Sprint := fun d => d.toList.map (fun ch => Fin.ofNat ch.toNat)

/-! ## Lemmas on `UploadToS3WithURL` -/

theorem upload_headers (contentType v : String) :
    Header.Set (Header.Set [] "Content-Type" contentType) "Content-Length" v
      = [("Content-Type", contentType), ("Content-Length", v)] := by
  simp [Header.Set]

/-- A normal form of `UploadToS3WithURL` over the raw handlers. -/
theorem UploadToS3WithURL_eq (c : Env δ σ) (url : String) (fs : FileStreamProps) (ct : String)
    (w : World δ σ) :
    UploadToS3WithURL c url fs ct w =
      if ct = "" then (some " Content-Type is empty", w)
      else if fs.payloadLength ≤ 0 then (some " Content-Length is empty", w)
      else match c.parseURL url with
        | some err => (some ("creating request: " ++ err), w)
        | none =>
          match c.Do (putRequest url fs ct) w.st with
          | (.error err, s) =>
            (some ("uploading file: " ++ err), w.log s (.Put (putRequest url fs ct) (.error err)))
          | (.ok resp, s) =>
            (if resp.StatusCode = 200 then none else some ("uploading file: " ++ resp.Status),
              w.log s (.Put (putRequest url fs ct) (.ok resp))) := by
  unfold UploadToS3WithURL
  by_cases hct : ct = ""
  · simp [hct]
  · by_cases hl : fs.payloadLength ≤ 0
    · have : ¬ (fs.payloadLength > 0) := by omega
      simp [hct, hl, this]
    · have hpos : fs.payloadLength > 0 := by omega
      simp only [hct, hl, hpos, ne_eq, not_false_eq_true, if_true, if_false, upload_headers,
        NewRequest, ClientDo, StatusOK]
      cases hp : c.parseURL url with
      | some err => simp
      | none =>
        simp only [putRequest]
        rcases hd : c.Do _ w.st with ⟨res, s⟩
        cases res with
        | error e => simp [hd]
        | ok resp =>
          by_cases h2 : resp.StatusCode = 200 <;> simp [hd, h2]

/-- A successful upload issued exactly one PUT, answered `200`. -/
theorem UploadToS3WithURL_ok {c : Env δ σ} {url : String} {fs : FileStreamProps} {ct : String}
    {w w' : World δ σ} (h : UploadToS3WithURL c url fs ct w = (none, w')) :
    ct ≠ "" ∧ 0 < fs.payloadLength ∧ c.parseURL url = none ∧
    ∃ resp, (c.Do (putRequest url fs ct) w.st).1 = .ok resp ∧ resp.StatusCode = 200 ∧
      w' = w.log (c.Do (putRequest url fs ct) w.st).2 (.Put (putRequest url fs ct) (.ok resp)) := by
  rw [UploadToS3WithURL_eq] at h
  by_cases hct : ct = ""
  · simp [hct] at h
  · by_cases hl : fs.payloadLength ≤ 0
    · simp [hct, hl] at h
    · simp only [hct, hl, if_false] at h
      refine ⟨hct, by omega, ?_⟩
      cases hp : c.parseURL url with
      | some err => simp [hp] at h
      | none =>
        simp only [hp] at h
        rcases hd : c.Do (putRequest url fs ct) w.st with ⟨res, s⟩
        rw [hd] at h
        cases res with
        | error e => simp at h
        | ok resp =>
          simp only [Prod.mk.injEq, ite_eq_left_iff] at h
          refine ⟨rfl, resp, rfl, ?_, h.2.symm⟩
          by_contra hne
          exact absurd (h.1 hne) (by simp)

/-- Whatever its result, an upload appends nothing to the trace or one PUT of the
request `putRequest`. -/
theorem UploadToS3WithURL_trace (c : Env δ σ) (url : String) (fs : FileStreamProps)
    (ct : String) (w : World δ σ) :
    (UploadToS3WithURL c url fs ct w).2.trace = w.trace ∨
    ∃ res, (UploadToS3WithURL c url fs ct w).2.trace
      = w.trace ++ [.Put (putRequest url fs ct) res] := by
  rw [UploadToS3WithURL_eq]
  by_cases hct : ct = ""
  · simp [hct]
  · by_cases hl : fs.payloadLength ≤ 0
    · simp [hct, hl]
    · simp only [hct, hl, if_false]
      cases hp : c.parseURL url with
      | some err => simp
      | none =>
        right
        rcases hd : c.Do (putRequest url fs ct) w.st with ⟨res, s⟩
        cases res with
        | error e => exact ⟨.error e, by simp [World.log]⟩
        | ok resp => exact ⟨.ok resp, by simp [World.log]⟩

/-- When the checks pass and the URL parses, exactly one PUT is issued. -/
theorem UploadToS3WithURL_put (c : Env δ σ) (url : String) (fs : FileStreamProps)
    (ct : String) (w : World δ σ) (hct : ct ≠ "") (hl : 0 < fs.payloadLength)
    (hp : c.parseURL url = none) :
    (UploadToS3WithURL c url fs ct w).2.trace
      = w.trace ++ [.Put (putRequest url fs ct) (c.Do (putRequest url fs ct) w.st).1] := by
  rw [UploadToS3WithURL_eq]
  have hl2 : ¬ fs.payloadLength ≤ 0 := by omega
  simp only [hct, hl2, if_false, hp]
  rcases hd : c.Do (putRequest url fs ct) w.st with ⟨res, s⟩
  cases res <;> simp [World.log]

/-- An upload whose PUT is answered with a status other than `200` fails with the status text. -/
theorem UploadToS3WithURL_status (c : Env δ σ) (url : String) (fs : FileStreamProps)
    (ct : String) (w : World δ σ) (hct : ct ≠ "") (hl : 0 < fs.payloadLength)
    (hp : c.parseURL url = none) (resp : Response) (s : σ)
    (hd : c.Do (putRequest url fs ct) w.st = (.ok resp, s)) (hne : resp.StatusCode ≠ 200) :
    UploadToS3WithURL c url fs ct w
      = (some ("uploading file: " ++ resp.Status),
          w.log s (.Put (putRequest url fs ct) (.ok resp))) := by
  rw [UploadToS3WithURL_eq]
  have hl2 : ¬ fs.payloadLength ≤ 0 := by omega
  simp [hct, hl2, hp, hd, hne]

/-! ## Lemmas on the traced calls -/

theorem initializeTemplateCreation_trace {c : Env δ σ} {ctx : Context σ} {w w' : World δ σ}
    {res : Option InitializeTemplateCreationResponse × Option Error}
    (h : Templates.InitializeTemplateCreation c ctx w = (res, w')) :
    w'.trace = w.trace ++ [.InitializeTemplateCreation res] := by
  simp only [Templates.InitializeTemplateCreation, Prod.mk.injEq] at h
  rw [← h.2, ← h.1]; rfl

theorem extractTemplateFiles_trace {c : Env δ σ} {ctx : Context σ} {id : String}
    {w w' : World δ σ} {err : Option Error}
    (h : Templates.ExtractTemplateFiles c ctx id w = (err, w')) :
    w'.trace = w.trace ++ [.ExtractTemplateFiles id err] := by
  simp only [Templates.ExtractTemplateFiles, Prod.mk.injEq] at h
  rw [← h.2, ← h.1]; rfl

theorem generateTemplatePreviews_trace {c : Env δ σ} {ctx : Context σ} {id : String}
    {req : GenerateTemplatePreviewsRequest δ} {w w' : World δ σ}
    {res : Option GenerateTemplatePreviewsResponse × Option Error}
    (h : Templates.GenerateTemplatePreviews c ctx id req w = (res, w')) :
    w'.trace = w.trace ++ [.GenerateTemplatePreviews id req res] := by
  simp only [Templates.GenerateTemplatePreviews, Prod.mk.injEq] at h
  rw [← h.2, ← h.1]; rfl

theorem saveCreatedTemplate_trace {c : Env δ σ} {ctx : Context σ} {id : String}
    {req : SaveCreatedTemplateRequest δ} {w w' : World δ σ} {err : Option Error}
    (h : Templates.SaveCreatedTemplate c ctx id req w = (err, w')) :
    w'.trace = w.trace ++ [.SaveCreatedTemplate id req err] := by
  simp only [Templates.SaveCreatedTemplate, Prod.mk.injEq] at h
  rw [← h.2, ← h.1]; rfl

theorem updateTemplate_trace {c : Env δ σ} {ctx : Context σ} {id : String}
    {req : UpdateTemplateRequest δ} {w w' : World δ σ} {err : Option Error}
    (h : Templates.UpdateTemplate c ctx id req w = (err, w')) :
    w'.trace = w.trace ++ [.UpdateTemplate id req err] := by
  simp only [Templates.UpdateTemplate, Prod.mk.injEq] at h
  rw [← h.2, ← h.1]; rfl

theorem upload_ok_trace {c : Env δ σ} {url : String} {fs : FileStreamProps} {ct : String}
    {w w' : World δ σ} (h : UploadToS3WithURL c url fs ct w = (none, w')) :
    0 < fs.payloadLength ∧ ∃ resp, resp.StatusCode = 200 ∧
      w'.trace = w.trace ++ [.Put (putRequest url fs ct) (.ok resp)] := by
  obtain ⟨_, hl, _, resp, _, h200, hw⟩ := UploadToS3WithURL_ok h
  exact ⟨hl, resp, h200, by rw [hw]; rfl⟩

/-! ## The successful runs of the template workflows -/

/-- Every successful run of `SaveTemplateFromFileStream` made exactly these five calls. -/
theorem SaveTemplateFromFileStream_success {c : Env δ σ} {fs : FileStreamProps}
    {md : SaveCreatedTemplateRequestTemplateInfo δ} {ctx : Context σ} {w : World δ σ}
    {tid : String}
    (h : (SaveTemplateFromFileStream c fs md ctx w).1 = .ret (tid, none)) :
    ∃ r resp pr,
      tid = r.TemplateId ∧ resp.StatusCode = 200 ∧ 0 < fs.payloadLength ∧
      (SaveTemplateFromFileStream c fs md ctx w).2.trace = w.trace ++
        [ .InitializeTemplateCreation (some r, none),
          .Put (putRequest r.PresignedTemplateUploadUrl fs "application/zip") (.ok resp),
          .ExtractTemplateFiles r.TemplateId none,
          .GenerateTemplatePreviews r.TemplateId { Type_ := md.Type_, Data := md.SampleData }
            (some pr, none),
          .SaveCreatedTemplate r.TemplateId
            { TemplateInfo := md,
              PreviewIds := { PngJobId := pr.PngPreview.JobId, PdfJobId := pr.PdfPreview.JobId } }
            none ] := by
  unfold SaveTemplateFromFileStream at h ⊢
  rcases hinit : Templates.InitializeTemplateCreation c ctx w with ⟨⟨ro, eo⟩, w1⟩
  simp only [hinit] at h ⊢
  cases eo with
  | some e => simp at h
  | none =>
  cases ro with
  | none => simp at h
  | some r =>
  simp only [] at h ⊢
  rcases hup : UploadToS3WithURL c r.PresignedTemplateUploadUrl fs "application/zip" w1
    with ⟨eo, w2⟩
  simp only [hup] at h ⊢
  cases eo with
  | some e => simp at h
  | none =>
  simp only [] at h ⊢
  rcases hex : Templates.ExtractTemplateFiles c ctx r.TemplateId w2 with ⟨eo, w3⟩
  simp only [hex] at h ⊢
  cases eo with
  | some e => simp at h
  | none =>
  simp only [] at h ⊢
  rcases hpr : Templates.GenerateTemplatePreviews c ctx r.TemplateId
    { Type_ := md.Type_, Data := md.SampleData } w3 with ⟨⟨po, eo⟩, w4⟩
  simp only [hpr] at h ⊢
  cases eo with
  | some e => simp at h
  | none =>
  cases po with
  | none => simp at h
  | some pr =>
  simp only [] at h ⊢
  rcases hsv : Templates.SaveCreatedTemplate c ctx r.TemplateId
    { TemplateInfo :=
        { Title := md.Title, Description := md.Description, Categories := md.Categories,
          Type_ := md.Type_, SourceCode := md.SourceCode, SampleData := md.SampleData },
      PreviewIds := { PngJobId := pr.PngPreview.JobId, PdfJobId := pr.PdfPreview.JobId } }
    w4 with ⟨eo, w5⟩
  simp only [hsv] at h ⊢
  cases eo with
  | some e => simp at h
  | none =>
  simp only [Outcome.ret.injEq, Prod.mk.injEq, and_true] at h ⊢
  obtain ⟨hl, resp, h200, ht2⟩ := upload_ok_trace hup
  refine ⟨r, resp, pr, h.symm, h200, hl, ?_⟩
  rw [saveCreatedTemplate_trace hsv, generateTemplatePreviews_trace hpr,
    extractTemplateFiles_trace hex, ht2, initializeTemplateCreation_trace hinit]
  simp

/-- Every successful run of `UpdateTemplateFromFileStream` made exactly these five calls. -/
theorem UpdateTemplateFromFileStream_success {c : Env δ σ} {templateId : String}
    {fs : FileStreamProps} {md : UpdateTemplateRequestTemplateInfo δ} {ctx : Context σ}
    {w : World δ σ} {tid : String}
    (h : (UpdateTemplateFromFileStream c templateId fs md ctx w).1 = .ret (tid, none)) :
    ∃ r resp pr,
      tid = templateId ∧ resp.StatusCode = 200 ∧ 0 < fs.payloadLength ∧
      (UpdateTemplateFromFileStream c templateId fs md ctx w).2.trace = w.trace ++
        [ .InitializeTemplateCreation (some r, none),
          .Put (putRequest r.PresignedTemplateUploadUrl fs "application/zip") (.ok resp),
          .ExtractTemplateFiles r.TemplateId none,
          .GenerateTemplatePreviews r.TemplateId { Type_ := md.Type_, Data := md.SampleData }
            (some pr, none),
          .UpdateTemplate templateId
            { TemplateInfo := md,
              PreviewIds := { PngJobId := pr.PngPreview.JobId, PdfJobId := pr.PdfPreview.JobId },
              ContentId := r.TemplateId }
            none ] := by
  unfold UpdateTemplateFromFileStream at h ⊢
  rcases hinit : Templates.InitializeTemplateCreation c ctx w with ⟨⟨ro, eo⟩, w1⟩
  simp only [hinit] at h ⊢
  cases eo with
  | some e => simp at h
  | none =>
  cases ro with
  | none => simp at h
  | some r =>
  simp only [] at h ⊢
  rcases hup : UploadToS3WithURL c r.PresignedTemplateUploadUrl fs "application/zip" w1
    with ⟨eo, w2⟩
  simp only [hup] at h ⊢
  cases eo with
  | some e => simp at h
  | none =>
  simp only [] at h ⊢
  rcases hex : Templates.ExtractTemplateFiles c ctx r.TemplateId w2 with ⟨eo, w3⟩
  simp only [hex] at h ⊢
  cases eo with
  | some e => simp at h
  | none =>
  simp only [] at h ⊢
  rcases hpr : Templates.GenerateTemplatePreviews c ctx r.TemplateId
    { Type_ := md.Type_, Data := md.SampleData } w3 with ⟨⟨po, eo⟩, w4⟩
  simp only [hpr] at h ⊢
  cases eo with
  | some e => simp at h
  | none =>
  cases po with
  | none => simp at h
  | some pr =>
  simp only [] at h ⊢
  rcases hsv : Templates.UpdateTemplate c ctx templateId
    { TemplateInfo :=
        { Title := md.Title, Type_ := md.Type_, Description := md.Description,
          Categories := md.Categories, SourceCode := md.SourceCode, SampleData := md.SampleData },
      PreviewIds := { PngJobId := pr.PngPreview.JobId, PdfJobId := pr.PdfPreview.JobId },
      ContentId := r.TemplateId }
    w4 with ⟨eo, w5⟩
  simp only [hsv] at h ⊢
  cases eo with
  | some e => simp at h
  | none =>
  simp only [Outcome.ret.injEq, Prod.mk.injEq, and_true] at h ⊢
  obtain ⟨hl, resp, h200, ht2⟩ := upload_ok_trace hup
  refine ⟨r, resp, pr, h.symm, h200, hl, ?_⟩
  rw [updateTemplate_trace hsv, generateTemplatePreviews_trace hpr,
    extractTemplateFiles_trace hex, ht2, initializeTemplateCreation_trace hinit]
  simp


/-! ## Lemmas on texts -/

theorem Contains.append_left {t x : String} (s : String) (h : Contains t x) :
    Contains (s ++ t) x := by
  unfold Contains at *
  rw [String.data_append]
  exact List.IsInfix.trans h (List.suffix_append s.data t.data).isInfix

theorem Contains.of_prefix {t x : String} (h : x.data <+: t.data) : Contains t x :=
  List.IsPrefix.isInfix h

/-! ## The claims -/

/-- C8: for every URL, content type and world, `UploadToS3WithURL` called with a
payload whose length (the `payloadLength` it is handed) is zero returns an error
and leaves the world as it was: no PUT and no other call is made. With a
non-empty content type the error is the content-length one. The same holds for an
empty content type, with the content-type error, and the two errors differ. -/
theorem UploadToS3WithURL_rejects_empty (c : Env δ σ) (url : String)
    (fsProps : FileStreamProps) (contentType : String) (w : World δ σ) :
    (fsProps.payloadLength = 0 →
      (∃ err, UploadToS3WithURL c url fsProps contentType w = (some err, w)) ∧
      (contentType ≠ "" →
        UploadToS3WithURL c url fsProps contentType w = (some " Content-Length is empty", w))) ∧
    (contentType = "" →
      UploadToS3WithURL c url fsProps contentType w = (some " Content-Type is empty", w)) ∧
    (" Content-Type is empty" : Error) ≠ " Content-Length is empty" := by
  refine ⟨fun h0 => ?_, fun hct => ?_, by decide⟩
  · rw [UploadToS3WithURL_eq]
    by_cases hct : contentType = ""
    · simp [hct]
    · simp [hct, h0]
  · rw [UploadToS3WithURL_eq]; simp [hct]

/-- Scenario for C8: an empty payload and, separately, an empty content type, both
sent to a service that would answer `200`. -/
theorem UploadToS3WithURL_rejects_empty_witness :
    UploadToS3WithURL (scenario "tpl-1" ok200 []) "https://store/upload"
        { payload := [], payloadLength := 0 } "application/zip" world0
      = (some " Content-Length is empty", world0) ∧
    UploadToS3WithURL (scenario "tpl-1" ok200 []) "https://store/upload" zip8 "" world0
      = (some " Content-Type is empty", world0) :=
  ⟨((UploadToS3WithURL_rejects_empty (scenario "tpl-1" ok200 []) "https://store/upload"
      { payload := [], payloadLength := 0 } "application/zip" world0).1 rfl).2 (by decide),
   (UploadToS3WithURL_rejects_empty (scenario "tpl-1" ok200 []) "https://store/upload"
      zip8 "" world0).2.1 rfl⟩

/-- The header fields that the request of `UploadToS3WithURL` carries when sent:
the length of the body, then the content type. The `Content-Length` entry that
the code sets from the declared `payloadLength` is not among them. -/
theorem putRequest_sent (url : String) (fsProps : FileStreamProps) (contentType : String) :
    (putRequest url fsProps contentType).sent
      = [("Content-Length", toString (fsProps.payload.length : Int)),
         ("Content-Type", contentType)] := by
  simp [Request.sent, putRequest, reqWriteExcludeHeader]

/-- C9: for every file stream value and content type, every PUT that
`UploadToS3WithURL` issues goes to the given URL and carries, as `net/http`
sends it, a `Content-Type` field equal to the passed content type and a
`Content-Length` field equal to the byte length of the body sent; its body is
the provided payload byte for byte. The call issues nothing else, and when its
checks pass (non-empty content type, positive declared length) and the URL
parses, it issues exactly one such PUT. -/
theorem UploadToS3WithURL_put_headers (c : Env δ σ) (url : String)
    (fsProps : FileStreamProps) (contentType : String) (w : World δ σ) :
    ∃ evs,
      (UploadToS3WithURL c url fsProps contentType w).2.trace = w.trace ++ evs ∧
      (∀ ev, ev ∈ evs → ∃ req res, ev = .Put req res ∧
        req.Method = "PUT" ∧ req.URL = url ∧
        Header.Get req.sent "Content-Type" = some contentType ∧
        Header.Get req.sent "Content-Length" = some (toString (req.Body.length : Int)) ∧
        req.Body = fsProps.payload) ∧
      (contentType ≠ "" → 0 < fsProps.payloadLength → c.parseURL url = none →
        ∃ req res, evs = [.Put req res]) := by
  have hprops : ∀ res, ∃ req res', Event.Put (δ := δ) (putRequest url fsProps contentType) res
      = .Put req res' ∧
      req.Method = "PUT" ∧ req.URL = url ∧
      Header.Get req.sent "Content-Type" = some contentType ∧
      Header.Get req.sent "Content-Length" = some (toString (req.Body.length : Int)) ∧
      req.Body = fsProps.payload := by
    intro res
    refine ⟨putRequest url fsProps contentType, res, rfl, rfl, rfl, ?_, ?_, rfl⟩
    · rw [putRequest_sent]; simp [Header.Get]
    · rw [putRequest_sent]; simp [Header.Get, putRequest]
  rcases UploadToS3WithURL_trace c url fsProps contentType w with ht | ⟨res, ht⟩
  · refine ⟨[], by simpa using ht, by simp, fun hct hlen hurl => ?_⟩
    have hput := UploadToS3WithURL_put c url fsProps contentType w hct hlen hurl
    rw [ht] at hput
    simp at hput
  · refine ⟨[.Put (putRequest url fsProps contentType) res], ht, ?_, fun _ _ _ => ⟨_, _, rfl⟩⟩
    intro ev hev
    simp only [List.mem_singleton] at hev
    rw [hev]
    exact hprops res

/-- Scenario S1 for C9: the eight-byte payload is PUT with `Content-Length: 8` and
`Content-Type: application/zip`. -/
theorem UploadToS3WithURL_put_headers_witness :
    (∃ req res,
      (UploadToS3WithURL (scenario "tpl-1" ok200 []) "https://store/upload" zip8
        "application/zip" world0).2.trace = [.Put req res] ∧
      Header.Get req.sent "Content-Type" = some "application/zip" ∧
      Header.Get req.sent "Content-Length" = some "8" ∧
      req.Body = zip8.payload) ∧
    ∃ evs,
      (UploadToS3WithURL (scenario "tpl-1" ok200 []) "https://store/upload" zip8
        "application/zip" world0).2.trace = world0.trace ++ evs ∧
      (∀ ev, ev ∈ evs → ∃ req res, ev = .Put req res ∧
        req.Method = "PUT" ∧ req.URL = "https://store/upload" ∧
        Header.Get req.sent "Content-Type" = some "application/zip" ∧
        Header.Get req.sent "Content-Length" = some (toString (req.Body.length : Int)) ∧
        req.Body = zip8.payload) ∧
      ("application/zip" ≠ "" → 0 < zip8.payloadLength →
        (scenario "tpl-1" ok200 []).parseURL "https://store/upload" = none →
        ∃ req res, evs = [.Put req res]) :=
  ⟨⟨putRequest "https://store/upload" zip8 "application/zip", .ok ok200, by decide, by decide,
      by decide, rfl⟩,
   UploadToS3WithURL_put_headers (scenario "tpl-1" ok200 []) "https://store/upload" zip8
    "application/zip" world0⟩

/-- The declared length is not what is sent: for the file stream value
`mismatched` (three bytes, declared length nine) the code puts `"9"` into the
header map, and the PUT carries `Content-Length: 3`, the length of its body. -/
theorem UploadToS3WithURL_declared_length_not_sent :
    (UploadToS3WithURL (scenario "tpl-1" ok200 []) "https://store/upload" mismatched
        "application/zip" world0).2.trace
      = [.Put (putRequest "https://store/upload" mismatched "application/zip") (.ok ok200)] ∧
    Header.Get (putRequest "https://store/upload" mismatched "application/zip").Header
        "Content-Length" = some "9" ∧
    Header.Get (putRequest "https://store/upload" mismatched "application/zip").sent
        "Content-Length" = some "3" ∧
    (putRequest "https://store/upload" mismatched "application/zip").Body.length = 3 := by
  decide

/-- C1: whenever `SaveTemplateFromFileStream` returns without error, the external
calls it made are exactly five, in this order and with nothing in between:
`InitializeTemplateCreation`, one PUT to the upload URL which that call returned,
`ExtractTemplateFiles`, `GenerateTemplatePreviews`, `SaveCreatedTemplate`; and
likewise for `UpdateTemplateFromFileStream`, whose fifth call is `UpdateTemplate`. -/
theorem template_workflow_call_order (c : Env δ σ) (fsProps : FileStreamProps)
    (ctx : Context σ) (w : World δ σ) :
    (∀ (metadata : SaveCreatedTemplateRequestTemplateInfo δ) (tid : String),
      (SaveTemplateFromFileStream c fsProps metadata ctx w).1 = .ret (tid, none) →
      ∃ r put putRes id3 id4 preq pres id5 sreq,
        (SaveTemplateFromFileStream c fsProps metadata ctx w).2.trace = w.trace ++
          [ .InitializeTemplateCreation (some r, none),
            .Put put putRes,
            .ExtractTemplateFiles id3 none,
            .GenerateTemplatePreviews id4 preq pres,
            .SaveCreatedTemplate id5 sreq none ] ∧
        put.Method = "PUT" ∧ put.URL = r.PresignedTemplateUploadUrl) ∧
    (∀ (templateId : String) (metadata : UpdateTemplateRequestTemplateInfo δ) (tid : String),
      (UpdateTemplateFromFileStream c templateId fsProps metadata ctx w).1 = .ret (tid, none) →
      ∃ r put putRes id3 id4 preq pres id5 ureq,
        (UpdateTemplateFromFileStream c templateId fsProps metadata ctx w).2.trace = w.trace ++
          [ .InitializeTemplateCreation (some r, none),
            .Put put putRes,
            .ExtractTemplateFiles id3 none,
            .GenerateTemplatePreviews id4 preq pres,
            .UpdateTemplate id5 ureq none ] ∧
        put.Method = "PUT" ∧ put.URL = r.PresignedTemplateUploadUrl) := by
  constructor
  · intro md tid h
    obtain ⟨r, resp, pr, _, _, _, ht⟩ := SaveTemplateFromFileStream_success h
    exact ⟨r, _, _, _, _, _, _, _, _, ht, rfl, rfl⟩
  · intro templateId md tid h
    obtain ⟨r, resp, pr, _, _, _, ht⟩ := UpdateTemplateFromFileStream_success h
    exact ⟨r, _, _, _, _, _, _, _, _, ht, rfl, rfl⟩

/-- Scenario S1 and S3 for C1: the runs succeed, so the theorem applies to them. -/
theorem template_workflow_call_order_witness :
    (SaveTemplateFromFileStream (scenario "tpl-1" ok200 []) zip8 metaS1 background world0).1
      = .ret ("tpl-1", none) ∧
    (∃ r put putRes id3 id4 preq pres id5 sreq,
      (SaveTemplateFromFileStream (scenario "tpl-1" ok200 []) zip8 metaS1 background world0).2.trace
        = world0.trace ++
          [ .InitializeTemplateCreation (some r, none),
            .Put put putRes,
            .ExtractTemplateFiles id3 none,
            .GenerateTemplatePreviews id4 preq pres,
            .SaveCreatedTemplate id5 sreq none ] ∧
      put.Method = "PUT" ∧ put.URL = r.PresignedTemplateUploadUrl) ∧
    (UpdateTemplateFromFileStream (scenario "tpl-10" ok200 []) "tpl-9" zip8 metaS3 background
        world0).1 = .ret ("tpl-9", none) ∧
    (∃ r put putRes id3 id4 preq pres id5 ureq,
      (UpdateTemplateFromFileStream (scenario "tpl-10" ok200 []) "tpl-9" zip8 metaS3 background
        world0).2.trace = world0.trace ++
          [ .InitializeTemplateCreation (some r, none),
            .Put put putRes,
            .ExtractTemplateFiles id3 none,
            .GenerateTemplatePreviews id4 preq pres,
            .UpdateTemplate id5 ureq none ] ∧
      put.Method = "PUT" ∧ put.URL = r.PresignedTemplateUploadUrl) :=
  ⟨by decide,
   (template_workflow_call_order (scenario "tpl-1" ok200 []) zip8 background world0).1
      metaS1 "tpl-1" (by decide),
   by decide,
   (template_workflow_call_order (scenario "tpl-10" ok200 []) zip8 background world0).2
      "tpl-9" metaS3 "tpl-9" (by decide)⟩

/-- C3: in every successful run of `SaveTemplateFromFileStream`, and of
`UpdateTemplateFromFileStream`, the last two calls are `GenerateTemplatePreviews`,
answered with some response `pr`, and the final `SaveCreatedTemplate` /
`UpdateTemplate`, whose request has `PngJobId = pr.PngPreview.JobId` and
`PdfJobId = pr.PdfPreview.JobId`. -/
theorem preview_ids_plumbing (c : Env δ σ) (fsProps : FileStreamProps)
    (ctx : Context σ) (w : World δ σ) :
    (∀ (metadata : SaveCreatedTemplateRequestTemplateInfo δ) (tid : String),
      (SaveTemplateFromFileStream c fsProps metadata ctx w).1 = .ret (tid, none) →
      ∃ before id4 preq pr id5 sreq,
        (SaveTemplateFromFileStream c fsProps metadata ctx w).2.trace = before ++
          [ .GenerateTemplatePreviews id4 preq (some pr, none),
            .SaveCreatedTemplate id5 sreq none ] ∧
        sreq.PreviewIds.PngJobId = pr.PngPreview.JobId ∧
        sreq.PreviewIds.PdfJobId = pr.PdfPreview.JobId) ∧
    (∀ (templateId : String) (metadata : UpdateTemplateRequestTemplateInfo δ) (tid : String),
      (UpdateTemplateFromFileStream c templateId fsProps metadata ctx w).1 = .ret (tid, none) →
      ∃ before id4 preq pr id5 ureq,
        (UpdateTemplateFromFileStream c templateId fsProps metadata ctx w).2.trace = before ++
          [ .GenerateTemplatePreviews id4 preq (some pr, none),
            .UpdateTemplate id5 ureq none ] ∧
        ureq.PreviewIds.PngJobId = pr.PngPreview.JobId ∧
        ureq.PreviewIds.PdfJobId = pr.PdfPreview.JobId) := by
  constructor
  · intro md tid h
    obtain ⟨r, resp, pr, _, _, _, ht⟩ := SaveTemplateFromFileStream_success h
    refine ⟨w.trace ++ [ .InitializeTemplateCreation (some r, none),
      .Put (putRequest r.PresignedTemplateUploadUrl fsProps "application/zip") (.ok resp),
      .ExtractTemplateFiles r.TemplateId none], r.TemplateId,
      { Type_ := md.Type_, Data := md.SampleData }, pr, r.TemplateId,
      { TemplateInfo := md,
        PreviewIds := { PngJobId := pr.PngPreview.JobId, PdfJobId := pr.PdfPreview.JobId } },
      ?_, rfl, rfl⟩
    rw [ht]; simp
  · intro templateId md tid h
    obtain ⟨r, resp, pr, _, _, _, ht⟩ := UpdateTemplateFromFileStream_success h
    refine ⟨w.trace ++ [ .InitializeTemplateCreation (some r, none),
      .Put (putRequest r.PresignedTemplateUploadUrl fsProps "application/zip") (.ok resp),
      .ExtractTemplateFiles r.TemplateId none], r.TemplateId,
      { Type_ := md.Type_, Data := md.SampleData }, pr, templateId,
      { TemplateInfo := md,
        PreviewIds := { PngJobId := pr.PngPreview.JobId, PdfJobId := pr.PdfPreview.JobId },
        ContentId := r.TemplateId },
      ?_, rfl, rfl⟩
    rw [ht]; simp

/-- Scenario S1 for C3: the previews answer `png-1` and `pdf-1`, and the final save
request carries exactly these. -/
theorem preview_ids_plumbing_witness :
    (SaveTemplateFromFileStream (scenario "tpl-1" ok200 []) zip8 metaS1 background world0).1
      = .ret ("tpl-1", none) ∧
    (∃ before id4 preq pr id5 sreq,
      (SaveTemplateFromFileStream (scenario "tpl-1" ok200 []) zip8 metaS1 background world0).2.trace
        = before ++
          [ .GenerateTemplatePreviews id4 preq (some pr, none),
            .SaveCreatedTemplate id5 sreq none ] ∧
      sreq.PreviewIds.PngJobId = pr.PngPreview.JobId ∧
      sreq.PreviewIds.PdfJobId = pr.PdfPreview.JobId) ∧
    (SaveTemplateFromFileStream (scenario "tpl-1" ok200 []) zip8 metaS1 background
        world0).2.trace.getLast?
      = some (.SaveCreatedTemplate "tpl-1"
          { TemplateInfo := metaS1, PreviewIds := { PngJobId := "png-1", PdfJobId := "pdf-1" } }
          none) :=
  ⟨by decide,
   (preview_ids_plumbing (scenario "tpl-1" ok200 []) zip8 background world0).1
      metaS1 "tpl-1" (by decide),
   by decide⟩

/-- C4: for every caller-supplied `templateId`, a successful
`UpdateTemplateFromFileStream` returns that `templateId`; its first call is
`InitializeTemplateCreation`, answered with some response `r`, and its last call
is `UpdateTemplate` addressed to the caller-supplied `templateId` with a request
whose `ContentId` is `r.TemplateId`. -/
theorem UpdateTemplateFromFileStream_target (c : Env δ σ) (templateId : String)
    (fsProps : FileStreamProps) (metadata : UpdateTemplateRequestTemplateInfo δ)
    (ctx : Context σ) (w : World δ σ) (tid : String)
    (h : (UpdateTemplateFromFileStream c templateId fsProps metadata ctx w).1
      = .ret (tid, none)) :
    tid = templateId ∧
    ∃ r between ureq,
      (UpdateTemplateFromFileStream c templateId fsProps metadata ctx w).2.trace = w.trace ++
        .InitializeTemplateCreation (some r, none) :: between ++
          [.UpdateTemplate templateId ureq none] ∧
      ureq.ContentId = r.TemplateId := by
  obtain ⟨r, resp, pr, htid, _, _, ht⟩ := UpdateTemplateFromFileStream_success h
  refine ⟨htid, r,
    [ .Put (putRequest r.PresignedTemplateUploadUrl fsProps "application/zip") (.ok resp),
      .ExtractTemplateFiles r.TemplateId none,
      .GenerateTemplatePreviews r.TemplateId
        { Type_ := metadata.Type_, Data := metadata.SampleData } (some pr, none) ],
    { TemplateInfo := metadata,
      PreviewIds := { PngJobId := pr.PngPreview.JobId, PdfJobId := pr.PdfPreview.JobId },
      ContentId := r.TemplateId }, ?_, rfl⟩
  rw [ht]; simp

/-- Scenario S3 for C4: the template `tpl-9` is updated and the init call answers
`tpl-10`; the run returns `tpl-9` and its `UpdateTemplate` call is addressed to
`tpl-9` with `ContentId = "tpl-10"`. -/
theorem UpdateTemplateFromFileStream_target_witness :
    (UpdateTemplateFromFileStream (scenario "tpl-10" ok200 []) "tpl-9" zip8 metaS3 background
        world0).1 = .ret ("tpl-9", none) ∧
    ("tpl-9" = "tpl-9" ∧
      ∃ r between ureq,
        (UpdateTemplateFromFileStream (scenario "tpl-10" ok200 []) "tpl-9" zip8 metaS3
          background world0).2.trace = world0.trace ++
            .InitializeTemplateCreation (some r, none) :: between ++
              [.UpdateTemplate "tpl-9" ureq none] ∧
        ureq.ContentId = r.TemplateId) ∧
    (UpdateTemplateFromFileStream (scenario "tpl-10" ok200 []) "tpl-9" zip8 metaS3 background
        world0).2.trace.getLast?
      = some (.UpdateTemplate "tpl-9"
          { TemplateInfo := metaS3, PreviewIds := { PngJobId := "png-1", PdfJobId := "pdf-1" },
            ContentId := "tpl-10" } none) :=
  ⟨by decide,
   UpdateTemplateFromFileStream_target (scenario "tpl-10" ok200 []) "tpl-9" zip8 metaS3
      background world0 "tpl-9" (by decide),
   by decide⟩

/-- C5: whenever `SaveTemplateFromFileStream` returns without error, the value it
returns is the `TemplateId` of the response `r` to `InitializeTemplateCreation`;
`ExtractTemplateFiles`, `GenerateTemplatePreviews` and `SaveCreatedTemplate` are
all addressed to `r.TemplateId`; the preview request carries the `Type` and the
`SampleData` of the metadata; and the `TemplateInfo` of the save request equals
the metadata field by field. -/
theorem SaveTemplateFromFileStream_result (c : Env δ σ) (fsProps : FileStreamProps)
    (metadata : SaveCreatedTemplateRequestTemplateInfo δ) (ctx : Context σ) (w : World δ σ)
    (tid : String)
    (h : (SaveTemplateFromFileStream c fsProps metadata ctx w).1 = .ret (tid, none)) :
    ∃ r put putRes preq pres sreq,
      (SaveTemplateFromFileStream c fsProps metadata ctx w).2.trace = w.trace ++
        [ .InitializeTemplateCreation (some r, none),
          .Put put putRes,
          .ExtractTemplateFiles r.TemplateId none,
          .GenerateTemplatePreviews r.TemplateId preq pres,
          .SaveCreatedTemplate r.TemplateId sreq none ] ∧
      tid = r.TemplateId ∧
      preq.Type_ = metadata.Type_ ∧ preq.Data = metadata.SampleData ∧
      sreq.TemplateInfo.Title = metadata.Title ∧
      sreq.TemplateInfo.Description = metadata.Description ∧
      sreq.TemplateInfo.Categories = metadata.Categories ∧
      sreq.TemplateInfo.Type_ = metadata.Type_ ∧
      sreq.TemplateInfo.SourceCode = metadata.SourceCode ∧
      sreq.TemplateInfo.SampleData = metadata.SampleData := by
  obtain ⟨r, resp, pr, htid, _, _, ht⟩ := SaveTemplateFromFileStream_success h
  exact ⟨r, _, _, _, _, _, ht, htid, rfl, rfl, rfl, rfl, rfl, rfl, rfl, rfl⟩

/-- Scenario S1 for C5: the init call answers `tpl-1` and the run returns `tpl-1`. -/
theorem SaveTemplateFromFileStream_result_witness :
    (SaveTemplateFromFileStream (scenario "tpl-1" ok200 []) zip8 metaS1 background world0).1
      = .ret ("tpl-1", none) ∧
    ∃ r put putRes preq pres sreq,
      (SaveTemplateFromFileStream (scenario "tpl-1" ok200 []) zip8 metaS1 background
        world0).2.trace = world0.trace ++
        [ .InitializeTemplateCreation (some r, none),
          .Put put putRes,
          .ExtractTemplateFiles r.TemplateId none,
          .GenerateTemplatePreviews r.TemplateId preq pres,
          .SaveCreatedTemplate r.TemplateId sreq none ] ∧
      "tpl-1" = r.TemplateId ∧
      preq.Type_ = metaS1.Type_ ∧ preq.Data = metaS1.SampleData ∧
      sreq.TemplateInfo.Title = metaS1.Title ∧
      sreq.TemplateInfo.Description = metaS1.Description ∧
      sreq.TemplateInfo.Categories = metaS1.Categories ∧
      sreq.TemplateInfo.Type_ = metaS1.Type_ ∧
      sreq.TemplateInfo.SourceCode = metaS1.SourceCode ∧
      sreq.TemplateInfo.SampleData = metaS1.SampleData :=
  ⟨by decide,
   SaveTemplateFromFileStream_result (scenario "tpl-1" ok200 []) zip8 metaS1 background world0
      "tpl-1" (by decide)⟩


/-- C2: for each step of the save workflow, if the steps before it succeed and
it fails with error text `err`, then `SaveTemplateFromFileStream` returns the
empty template id together with the error `"<step name>: " ++ err`, in the
very world in which the failing step returned: the trace ends with the call of
the failing step, so no later step is invoked. In particular, when the PUT of
step 2 is answered with status code 403 (and a status text that starts with the
code, as `net/http` delivers it), the returned error contains `"403"` and the
trace holds the init call and the PUT only, hence no `ExtractTemplateFiles`. -/
theorem SaveTemplateFromFileStream_step_failure (c : Env δ σ) (fsProps : FileStreamProps)
    (metadata : SaveCreatedTemplateRequestTemplateInfo δ) (ctx : Context σ) (w : World δ σ) :
    (∀ res err w1,
      Templates.InitializeTemplateCreation c ctx w = ((res, some err), w1) →
      SaveTemplateFromFileStream c fsProps metadata ctx w
        = (.ret ("", some ("initializing template creation: " ++ err)), w1) ∧
      w1.trace = w.trace ++ [.InitializeTemplateCreation (res, some err)]) ∧
    (∀ r w1,
      Templates.InitializeTemplateCreation c ctx w = ((some r, none), w1) →
      (∀ err w2,
        UploadToS3WithURL c r.PresignedTemplateUploadUrl fsProps "application/zip" w1
          = (some err, w2) →
        SaveTemplateFromFileStream c fsProps metadata ctx w
          = (.ret ("", some ("uploading template: " ++ err)), w2) ∧
        (w2.trace = w.trace ++ [.InitializeTemplateCreation (some r, none)] ∨
          ∃ res, w2.trace = w.trace ++ [.InitializeTemplateCreation (some r, none),
            .Put (putRequest r.PresignedTemplateUploadUrl fsProps "application/zip") res])) ∧
      (∀ resp s,
        0 < fsProps.payloadLength → c.parseURL r.PresignedTemplateUploadUrl = none →
        c.Do (putRequest r.PresignedTemplateUploadUrl fsProps "application/zip") w1.st
          = (.ok resp, s) →
        resp.StatusCode = 403 → resp.WellFormed →
        (SaveTemplateFromFileStream c fsProps metadata ctx w).1
          = .ret ("", some ("uploading template: " ++ ("uploading file: " ++ resp.Status))) ∧
        Contains ("uploading template: " ++ ("uploading file: " ++ resp.Status)) "403" ∧
        (SaveTemplateFromFileStream c fsProps metadata ctx w).2.trace
          = w.trace ++ [.InitializeTemplateCreation (some r, none),
            .Put (putRequest r.PresignedTemplateUploadUrl fsProps "application/zip")
              (.ok resp)]) ∧
      (∀ w2,
        UploadToS3WithURL c r.PresignedTemplateUploadUrl fsProps "application/zip" w1
          = (none, w2) →
        (∀ err w3,
          Templates.ExtractTemplateFiles c ctx r.TemplateId w2 = (some err, w3) →
          SaveTemplateFromFileStream c fsProps metadata ctx w
            = (.ret ("", some ("extracting template files: " ++ err)), w3) ∧
          ∃ putRes, w3.trace = w.trace ++ [.InitializeTemplateCreation (some r, none),
            .Put (putRequest r.PresignedTemplateUploadUrl fsProps "application/zip") putRes,
            .ExtractTemplateFiles r.TemplateId (some err)]) ∧
        (∀ w3,
          Templates.ExtractTemplateFiles c ctx r.TemplateId w2 = (none, w3) →
          (∀ res err w4,
            Templates.GenerateTemplatePreviews c ctx r.TemplateId
              { Type_ := metadata.Type_, Data := metadata.SampleData } w3
              = ((res, some err), w4) →
            SaveTemplateFromFileStream c fsProps metadata ctx w
              = (.ret ("", some ("generating template previews: " ++ err)), w4) ∧
            ∃ putRes, w4.trace = w.trace ++ [.InitializeTemplateCreation (some r, none),
              .Put (putRequest r.PresignedTemplateUploadUrl fsProps "application/zip") putRes,
              .ExtractTemplateFiles r.TemplateId none,
              .GenerateTemplatePreviews r.TemplateId
                { Type_ := metadata.Type_, Data := metadata.SampleData } (res, some err)]) ∧
          (∀ pr w4,
            Templates.GenerateTemplatePreviews c ctx r.TemplateId
              { Type_ := metadata.Type_, Data := metadata.SampleData } w3
              = ((some pr, none), w4) →
            ∀ err w5,
              Templates.SaveCreatedTemplate c ctx r.TemplateId
                { TemplateInfo := metadata,
                  PreviewIds :=
                    { PngJobId := pr.PngPreview.JobId, PdfJobId := pr.PdfPreview.JobId } } w4
                = (some err, w5) →
              SaveTemplateFromFileStream c fsProps metadata ctx w
                = (.ret ("", some ("saving created template: " ++ err)), w5) ∧
              ∃ putRes, w5.trace = w.trace ++ [.InitializeTemplateCreation (some r, none),
                .Put (putRequest r.PresignedTemplateUploadUrl fsProps "application/zip") putRes,
                .ExtractTemplateFiles r.TemplateId none,
                .GenerateTemplatePreviews r.TemplateId
                  { Type_ := metadata.Type_, Data := metadata.SampleData } (some pr, none),
                .SaveCreatedTemplate r.TemplateId
                  { TemplateInfo := metadata,
                    PreviewIds :=
                      { PngJobId := pr.PngPreview.JobId, PdfJobId := pr.PdfPreview.JobId } }
                  (some err)])))) := by
  refine ⟨fun res err w1 h1 => ⟨?_, initializeTemplateCreation_trace h1⟩,
    fun r w1 h1 => ⟨fun err w2 h2 => ⟨?_, ?_⟩, fun resp s hl hu hd h403 hwf => ?_,
      fun w2 h2 => ⟨fun err w3 h3 => ⟨?_, ?_⟩, fun w3 h3 =>
        ⟨fun res err w4 h4 => ⟨?_, ?_⟩, fun pr w4 h4 err w5 h5 => ⟨?_, ?_⟩⟩⟩⟩⟩
  · simp [SaveTemplateFromFileStream, h1]
  · simp [SaveTemplateFromFileStream, h1, h2]
  · have ht := UploadToS3WithURL_trace c r.PresignedTemplateUploadUrl fsProps
      "application/zip" w1
    rw [h2] at ht
    rcases ht with ht | ⟨res, ht⟩
    · left; rw [ht, initializeTemplateCreation_trace h1]
    · right; exact ⟨res, by rw [ht, initializeTemplateCreation_trace h1]; simp⟩
  · have hne : resp.StatusCode ≠ 200 := by omega
    have h2 := UploadToS3WithURL_status c r.PresignedTemplateUploadUrl fsProps
      "application/zip" w1 (by decide) hl hu resp s hd hne
    refine ⟨by simp [SaveTemplateFromFileStream, h1, h2], ?_, ?_⟩
    · apply Contains.append_left
      apply Contains.append_left
      apply Contains.of_prefix
      have h3 : (toString (403 : Nat)) = "403" := by decide
      unfold Response.WellFormed at hwf
      rw [h403, h3] at hwf
      exact hwf
    · simp [SaveTemplateFromFileStream, h1, h2, World.log,
        initializeTemplateCreation_trace h1]
  · simp [SaveTemplateFromFileStream, h1, h2, h3]
  · obtain ⟨_, resp, _, ht2⟩ := upload_ok_trace h2
    exact ⟨.ok resp, by
      rw [extractTemplateFiles_trace h3, ht2, initializeTemplateCreation_trace h1]; simp⟩
  · simp [SaveTemplateFromFileStream, h1, h2, h3, h4]
  · obtain ⟨_, resp, _, ht2⟩ := upload_ok_trace h2
    exact ⟨.ok resp, by
      rw [generateTemplatePreviews_trace h4, extractTemplateFiles_trace h3, ht2,
        initializeTemplateCreation_trace h1]; simp⟩
  · simp [SaveTemplateFromFileStream, h1, h2, h3, h4, h5]
  · obtain ⟨_, resp, _, ht2⟩ := upload_ok_trace h2
    exact ⟨.ok resp, by
      rw [saveCreatedTemplate_trace h5, generateTemplatePreviews_trace h4,
        extractTemplateFiles_trace h3, ht2, initializeTemplateCreation_trace h1]; simp⟩

/-! ## Lemmas on the poll loop -/

theorem queries_append (t u : List (Event δ)) : queries (t ++ u) = queries t + queries u := by
  simp [queries, List.countP_append]

theorem queries_pollEvents (c : Env δ σ) (ctx : Context σ) (jobId : String) (iv : Nat) :
    ∀ (n : Nat) (s : σ), queries (pollEvents c ctx jobId iv n s) = n := by
  intro n
  induction n with
  | zero => intro s; rfl
  | succ n ih =>
    intro s
    have h := ih (c.Documents.GetJobStatus ctx jobId s).2
    simp only [queries, pollEvents, List.countP_cons, Event.isStatusQuery] at h ⊢
    simp [h]

theorem statusAnswer_succ (c : Env δ σ) (ctx : Context σ) (jobId : String) (i : Nat) (s : σ) :
    statusAnswer c ctx jobId (i + 1) s
      = statusAnswer c ctx jobId i (c.Documents.GetJobStatus ctx jobId s).2 := rfl

theorem notDone_elim {a : Option GetJobStatusResponse × Option Error} (h : notDone a = true) :
    ∃ r st, a = (some r, none) ∧ r.Status = some st ∧ st ≠ "done" := by
  rcases a with ⟨ro, eo⟩
  cases ro with
  | none => simp [notDone] at h
  | some r =>
    cases eo with
    | some e => simp [notDone] at h
    | none =>
      cases hs : r.Status with
      | none => simp [notDone, hs] at h
      | some st =>
        simp [notDone, hs] at h
        exact ⟨r, st, rfl, hs, h⟩

/-- One round of the loop on an answer that is not `"done"`: query, sleep, go on. -/
theorem pollLoop_step (c : Env δ σ) (jobId : String) (ctx : Context σ) (iv n : Nat) (s : σ)
    (tr : List (Event δ)) (h : notDone (c.Documents.GetJobStatus ctx jobId s).1 = true) :
    pollLoop c jobId ctx iv (n + 1) ⟨s, tr⟩
      = pollLoop c jobId ctx iv n
          ⟨(c.Documents.GetJobStatus ctx jobId s).2,
            tr ++ [.GetJobStatus jobId (c.Documents.GetJobStatus ctx jobId s).1, .Sleep iv]⟩ := by
  obtain ⟨r, st, ha, hst, hne⟩ := notDone_elim h
  rw [pollLoop]
  simp only [Documents.GetJobStatus, ha, hst, hne, if_false, World.log, Sleep,
    List.append_assoc, List.singleton_append]

/-- The round of the loop on an answer with status `"done"`: query and return. -/
theorem pollLoop_last (c : Env δ σ) (jobId : String) (ctx : Context σ) (iv n : Nat) (s : σ)
    (tr : List (Event δ)) (js : GetJobStatusResponse)
    (ha : (c.Documents.GetJobStatus ctx jobId s).1 = (some js, none))
    (hd : js.Status = some "done") :
    pollLoop c jobId ctx iv (n + 1) ⟨s, tr⟩
      = (some (.ret (some js, none)),
          ⟨(c.Documents.GetJobStatus ctx jobId s).2, tr ++ [.GetJobStatus jobId (some js, none)]⟩) := by
  rw [pollLoop]
  simp only [Documents.GetJobStatus, ha, hd, if_true, World.log]

theorem pollLoop_exhaust (c : Env δ σ) (jobId : String) (ctx : Context σ) (iv : Nat) :
    ∀ (n : Nat) (s : σ) (tr : List (Event δ)),
      (∀ i, i < n → notDone (statusAnswer c ctx jobId i s) = true) →
      pollLoop c jobId ctx iv n ⟨s, tr⟩
        = (none, ⟨statusState c ctx jobId n s, tr ++ pollEvents c ctx jobId iv n s⟩) := by
  intro n
  induction n with
  | zero => intro s tr _; simp [pollLoop, statusState, pollEvents]
  | succ n ih =>
    intro s tr h
    have h0 : notDone (c.Documents.GetJobStatus ctx jobId s).1 = true := h 0 (by omega)
    rw [pollLoop_step c jobId ctx iv n s tr h0, ih]
    · simp [statusState, pollEvents]
    · intro i hi
      rw [← statusAnswer_succ]
      exact h (i + 1) (by omega)

theorem pollLoop_done (c : Env δ σ) (jobId : String) (ctx : Context σ) (iv : Nat)
    (js : GetJobStatusResponse) (hd : js.Status = some "done") :
    ∀ (m n : Nat) (s : σ) (tr : List (Event δ)), m < n →
      (∀ i, i < m → notDone (statusAnswer c ctx jobId i s) = true) →
      statusAnswer c ctx jobId m s = (some js, none) →
      pollLoop c jobId ctx iv n ⟨s, tr⟩
        = (some (.ret (some js, none)),
            ⟨statusState c ctx jobId (m + 1) s,
              tr ++ pollEvents c ctx jobId iv m s ++ [.GetJobStatus jobId (some js, none)]⟩) := by
  intro m
  induction m with
  | zero =>
    intro n s tr hn _ ha
    obtain ⟨n, rfl⟩ : ∃ n', n = n' + 1 := ⟨n - 1, by omega⟩
    rw [pollLoop_last c jobId ctx iv n s tr js ha hd]
    simp [statusState, pollEvents]
  | succ m ih =>
    intro n s tr hn h ha
    obtain ⟨n, rfl⟩ : ∃ n', n = n' + 1 := ⟨n - 1, by omega⟩
    have h0 : notDone (c.Documents.GetJobStatus ctx jobId s).1 = true := h 0 (by omega)
    rw [pollLoop_step c jobId ctx iv n s tr h0, ih n _ _ (by omega)]
    · simp [statusState, pollEvents]
    · intro i hi
      rw [← statusAnswer_succ]
      exact h (i + 1) (by omega)
    · rw [← statusAnswer_succ]; exact ha

/-- Whatever the service answers, `n` rounds of the loop issue at most `n` queries. -/
theorem pollLoop_queries_le (c : Env δ σ) (jobId : String) (ctx : Context σ) (iv : Nat) :
    ∀ (n : Nat) (w : World δ σ),
      ∃ evs, (pollLoop c jobId ctx iv n w).2.trace = w.trace ++ evs ∧ queries evs ≤ n := by
  intro n
  induction n with
  | zero => intro w; exact ⟨[], by simp [pollLoop], by simp [queries]⟩
  | succ n ih =>
    intro w
    rw [pollLoop]
    rcases hq : Documents.GetJobStatus c ctx jobId w with ⟨⟨ro, eo⟩, w1⟩
    have ht : w1.trace = w.trace ++ [.GetJobStatus jobId (ro, eo)] := by
      simp only [Documents.GetJobStatus, Prod.mk.injEq] at hq
      rw [← hq.2, ← hq.1]; rfl
    have hone : queries [Event.GetJobStatus (δ := δ) jobId (ro, eo)] = 1 := rfl
    cases eo with
    | some e => exact ⟨_, by simpa using ht, by rw [hone]; omega⟩
    | none =>
      cases ro with
      | none => exact ⟨_, by simpa using ht, by rw [hone]; omega⟩
      | some r =>
        simp only []
        cases hs : r.Status with
        | none => exact ⟨_, by simpa using ht, by rw [hone]; omega⟩
        | some st =>
          simp only []
          by_cases hdone : st = "done"
          · simp only [hdone, if_true]
            exact ⟨_, ht, by rw [hone]; omega⟩
          · simp only [hdone, if_false]
            obtain ⟨evs, he, hle⟩ := ih (Sleep iv w1)
            refine ⟨[.GetJobStatus jobId (some r, none), .Sleep iv] ++ evs, ?_, ?_⟩
            · rw [he]; simp [Sleep, World.log, ht]
            · rw [queries_append]
              have : queries [Event.GetJobStatus (δ := δ) jobId (some r, none), .Sleep iv] = 1 :=
                rfl
              omega
theorem notDone_of_hasStatus {a : Option GetJobStatusResponse × Option Error} {st : String}
    (h : hasStatus a st = true) (hne : st ≠ "done") : notDone a = true := by
  rcases a with ⟨ro, eo⟩
  cases ro with
  | none => simp [hasStatus] at h
  | some r =>
    cases eo with
    | some e => simp [hasStatus] at h
    | none =>
      simp only [hasStatus, decide_eq_true_eq] at h
      simp [notDone, h, hne]

/-- The run of `PollForJobCompletion` when the first `"done"` is answer number `m + 1`. -/
theorem poll_run_done (c : Env δ σ) (jobId : String) (ctx : Context σ)
    (w : World δ σ) (m : Nat) (js : GetJobStatusResponse) (hm : m < 60)
    (h : ∀ i, i < m → notDone (statusAnswer c ctx jobId i w.st) = true)
    (ha : statusAnswer c ctx jobId m w.st = (some js, none)) (hd : js.Status = some "done") :
    PollForJobCompletion c jobId ctx w
      = (.ret (some js, none),
          ⟨statusState c ctx jobId (m + 1) w.st,
            w.trace ++ (.Sleep 1000 :: pollEvents c ctx jobId 500 m w.st ++
              [.GetJobStatus jobId (some js, none)])⟩) := by
  unfold PollForJobCompletion
  simp only [Sleep, World.log]
  rw [pollLoop_done c jobId ctx 500 js hd m 60 w.st _ hm h ha]
  simp

/-- The run of `PollForJobCompletion` when no answer among the first 60 is `"done"`. -/
theorem poll_run_exhaust (c : Env δ σ) (jobId : String) (ctx : Context σ)
    (w : World δ σ)
    (h : ∀ i, i < 60 → notDone (statusAnswer c ctx jobId i w.st) = true) :
    PollForJobCompletion c jobId ctx w
      = (.ret (none, some ("job " ++ jobId ++ " not found")),
          ⟨statusState c ctx jobId 60 w.st,
            w.trace ++ (.Sleep 1000 :: pollEvents c ctx jobId 500 60 w.st)⟩) := by
  unfold PollForJobCompletion
  simp only [Sleep, World.log]
  rw [pollLoop_exhaust c jobId ctx 500 60 w.st _ h]
  simp

/-- A status response without a status (`Status` is `nil`) makes the read
`*jobStatus.Status` panic: the run ends right after that query. -/
theorem PollForJobCompletion_nil_status (c : Env δ σ) (jobId : String) (ctx : Context σ)
    (w : World δ σ) (r : GetJobStatusResponse)
    (ha : statusAnswer c ctx jobId 0 w.st = (some r, none)) (hs : r.Status = none) :
    (PollForJobCompletion c jobId ctx w).1 = .panic := by
  simp only [statusAnswer, statusState] at ha
  simp [PollForJobCompletion, pollLoop, Documents.GetJobStatus, Sleep, World.log, ha, hs]

/-- C6: for every job id and every service whose first 60 answers to the status
query have their first `"done"` at position `k` (the `k - 1` answers before it
are status responses with a status other than `"done"`), `PollForJobCompletion`
returns that `k`-th response with no error; the calls it makes are the initial
sleep of 1000 ms, then `k - 1` rounds of query and 500 ms sleep, then the `k`-th
query, which is the last event: exactly `k` queries, nothing after the last one.
Consequently, when `StartGenerateDocument` returns the start response `sr` and
the statuses for `sr.JobId` are pending, running, running, done,
`GenerateDocument` is the poll of `sr.JobId`, returns the fourth response and
issues exactly four status queries. -/
theorem PollForJobCompletion_done (c : Env δ σ) (ctx : Context σ) (w : World δ σ) :
    (∀ (jobId : String) (k : Nat) (js : GetJobStatusResponse), 1 ≤ k → k ≤ 60 →
      (∀ i, i < k - 1 → notDone (statusAnswer c ctx jobId i w.st) = true) →
      statusAnswer c ctx jobId (k - 1) w.st = (some js, none) → js.Status = some "done" →
      (PollForJobCompletion c jobId ctx w).1 = .ret (some js, none) ∧
      ∃ evs, (PollForJobCompletion c jobId ctx w).2.trace = w.trace ++ evs ∧
        evs = .Sleep 1000 :: pollEvents c ctx jobId 500 (k - 1) w.st ++
          [.GetJobStatus jobId (some js, none)] ∧
        queries evs = k ∧ evs.getLast? = some (.GetJobStatus jobId (some js, none))) ∧
    (∀ (gdProps : GenerateDocumentProps δ) (sr : StartRenderJobResponse) (w1 : World δ σ)
      (js : GetJobStatusResponse),
      StartGenerateDocument c gdProps ctx w = (.ret (some sr, none), w1) →
      hasStatus (statusAnswer c ctx sr.JobId 0 w1.st) "pending" = true →
      hasStatus (statusAnswer c ctx sr.JobId 1 w1.st) "running" = true →
      hasStatus (statusAnswer c ctx sr.JobId 2 w1.st) "running" = true →
      statusAnswer c ctx sr.JobId 3 w1.st = (some js, none) → js.Status = some "done" →
      GenerateDocument c gdProps ctx w = PollForJobCompletion c sr.JobId ctx w1 ∧
      (GenerateDocument c gdProps ctx w).1 = .ret (some js, none) ∧
      ∃ evs, (GenerateDocument c gdProps ctx w).2.trace = w1.trace ++ evs ∧
        queries evs = 4 ∧ evs.getLast? = some (.GetJobStatus sr.JobId (some js, none))) := by
  constructor
  · intro jobId k js h1 h60 hnd ha hd
    obtain ⟨m, rfl⟩ : ∃ m, k = m + 1 := ⟨k - 1, by omega⟩
    simp only [Nat.add_sub_cancel] at ha hnd ⊢
    have hrun := poll_run_done c jobId ctx w m js (by omega) hnd ha hd
    rw [hrun]
    refine ⟨rfl, _, rfl, rfl, ?_, ?_⟩
    · have hq := queries_pollEvents c ctx jobId 500 m w.st
      have e1 : Event.Sleep (δ := δ) 1000 :: pollEvents c ctx jobId 500 m w.st ++
          [.GetJobStatus jobId (some js, none)]
          = [Event.Sleep 1000] ++ pollEvents c ctx jobId 500 m w.st ++
            [.GetJobStatus jobId (some js, none)] := rfl
      have q0 : queries [Event.Sleep (δ := δ) 1000] = 0 := rfl
      have q1 : queries [Event.GetJobStatus (δ := δ) jobId (some js, none)] = 1 := rfl
      rw [e1, queries_append, queries_append]; omega
    · rw [List.getLast?_append]; rfl
  · intro gdProps sr w1 js hstart h0 h1 h2 ha hd
    have hgen : GenerateDocument c gdProps ctx w = PollForJobCompletion c sr.JobId ctx w1 := by
      simp [GenerateDocument, hstart]
    have hnd : ∀ i, i < 3 → notDone (statusAnswer c ctx sr.JobId i w1.st) = true := by
      intro i hi
      have : i = 0 ∨ i = 1 ∨ i = 2 := by omega
      rcases this with rfl | rfl | rfl
      · exact notDone_of_hasStatus h0 (by decide)
      · exact notDone_of_hasStatus h1 (by decide)
      · exact notDone_of_hasStatus h2 (by decide)
    have hrun := poll_run_done c sr.JobId ctx w1 3 js (by omega) hnd ha hd
    refine ⟨hgen, by rw [hgen, hrun], ?_⟩
    rw [hgen, hrun]
    refine ⟨_, rfl, ?_, ?_⟩
    · have hq := queries_pollEvents c ctx sr.JobId 500 3 w1.st
      have e1 : Event.Sleep (δ := δ) 1000 :: pollEvents c ctx sr.JobId 500 3 w1.st ++
          [.GetJobStatus sr.JobId (some js, none)]
          = [Event.Sleep 1000] ++ pollEvents c ctx sr.JobId 500 3 w1.st ++
            [.GetJobStatus sr.JobId (some js, none)] := rfl
      have q0 : queries [Event.Sleep (δ := δ) 1000] = 0 := rfl
      have q1 : queries [Event.GetJobStatus (δ := δ) sr.JobId (some js, none)] = 1 := rfl
      rw [e1, queries_append, queries_append]; omega
    · rw [List.getLast?_append]; rfl

/-- C7: for every job id and every behaviour of the service, the calls made by
`PollForJobCompletion` contain at most 60 status queries; and if each of the
first 60 answers is a status response, without error, with a status other than
`"done"`, then exactly 60 queries are issued and the result is no status
response together with the error `"job <jobId> not found"`, which contains the
job id. -/
theorem PollForJobCompletion_bound (c : Env δ σ) (jobId : String) (ctx : Context σ)
    (w : World δ σ) :
    (∃ evs, (PollForJobCompletion c jobId ctx w).2.trace = w.trace ++ evs ∧ queries evs ≤ 60) ∧
    ((∀ i, i < 60 → notDone (statusAnswer c ctx jobId i w.st) = true) →
      (PollForJobCompletion c jobId ctx w).1
        = .ret (none, some ("job " ++ jobId ++ " not found")) ∧
      Contains ("job " ++ jobId ++ " not found") jobId ∧
      ∃ evs, (PollForJobCompletion c jobId ctx w).2.trace = w.trace ++ evs ∧
        evs = .Sleep 1000 :: pollEvents c ctx jobId 500 60 w.st ∧ queries evs = 60) := by
  constructor
  · obtain ⟨evs, he, hle⟩ := pollLoop_queries_le c jobId ctx 500 60 (Sleep 1000 w)
    refine ⟨.Sleep 1000 :: evs, ?_, ?_⟩
    · unfold PollForJobCompletion
      simp only []
      rcases hp : pollLoop c jobId ctx 500 60 (Sleep 1000 w) with ⟨o, w'⟩
      rw [hp] at he
      simp only [] at he
      cases o <;> simp [he, Sleep, World.log]
    · have : queries (Event.Sleep (δ := δ) 1000 :: evs) = queries evs := by
        simp [queries, Event.isStatusQuery]
      omega
  · intro h
    rw [poll_run_exhaust c jobId ctx w h]
    refine ⟨rfl, ?_, _, rfl, rfl, ?_⟩
    · unfold Contains
      rw [String.data_append, String.data_append]
      exact ⟨"job ".data, " not found".data, rfl⟩
    · have hq := queries_pollEvents c ctx jobId 500 60 w.st
      have e1 : Event.Sleep (δ := δ) 1000 :: pollEvents c ctx jobId 500 60 w.st
          = [Event.Sleep 1000] ++ pollEvents c ctx jobId 500 60 w.st := rfl
      have q0 : queries [Event.Sleep (δ := δ) 1000] = 0 := rfl
      rw [e1, queries_append]; omega


/-- Scenario S2 for C2: the PUT is answered `403 Forbidden`. -/
theorem SaveTemplateFromFileStream_step_failure_witness :
    ((SaveTemplateFromFileStream (scenario "tpl-1" forbidden403 []) zip8 metaS1 background
        world0).1
      = .ret ("", some ("uploading template: " ++ ("uploading file: " ++ forbidden403.Status))) ∧
    Contains ("uploading template: " ++ ("uploading file: " ++ forbidden403.Status)) "403" ∧
    (SaveTemplateFromFileStream (scenario "tpl-1" forbidden403 []) zip8 metaS1 background
        world0).2.trace
      = world0.trace ++
        [.InitializeTemplateCreation
            (some { TemplateId := "tpl-1", PresignedTemplateUploadUrl := "https://store/upload" },
              none),
          .Put (putRequest "https://store/upload" zip8 "application/zip") (.ok forbidden403)]) ∧
    (SaveTemplateFromFileStream (scenario "tpl-1" forbidden403 []) zip8 metaS1 background
        world0).1
      = .ret ("", some "uploading template: uploading file: 403 Forbidden") :=
  ⟨((SaveTemplateFromFileStream_step_failure (scenario "tpl-1" forbidden403 []) zip8 metaS1
      background world0).2
      { TemplateId := "tpl-1", PresignedTemplateUploadUrl := "https://store/upload" }
      (world0.log 0 (.InitializeTemplateCreation
        (some { TemplateId := "tpl-1", PresignedTemplateUploadUrl := "https://store/upload" },
          none))) rfl).2.1 forbidden403 0 (by decide) rfl rfl rfl (by decide),
   by decide⟩

/-- Scenario S5 for C6: the statuses are pending, running, running, done. -/
theorem PollForJobCompletion_done_witness :
    ((PollForJobCompletion (scenario "tpl-1" ok200 ["pending", "running", "running", "done"])
        "job-7" background world0).1
      = .ret (some { Status := some "done", Output := none }, none) ∧
    ∃ evs, (PollForJobCompletion (scenario "tpl-1" ok200 ["pending", "running", "running", "done"])
        "job-7" background world0).2.trace = world0.trace ++ evs ∧
      evs = .Sleep 1000 :: pollEvents (scenario "tpl-1" ok200
          ["pending", "running", "running", "done"]) background "job-7" 500 (4 - 1) world0.st ++
        [.GetJobStatus "job-7" (some { Status := some "done", Output := none }, none)] ∧
      queries evs = 4 ∧
      evs.getLast?
        = some (.GetJobStatus "job-7" (some { Status := some "done", Output := none }, none))) ∧
    (GenerateDocument (scenario "tpl-1" ok200 ["pending", "running", "running", "done"]) specS5
        background world0).1
      = .ret (some { Status := some "done", Output := none }, none) ∧
    queries (GenerateDocument (scenario "tpl-1" ok200 ["pending", "running", "running", "done"])
        specS5 background world0).2.trace = 4 :=
  ⟨(PollForJobCompletion_done (scenario "tpl-1" ok200 ["pending", "running", "running", "done"])
      background world0).1 "job-7" 4 { Status := some "done", Output := none }
      (by decide) (by decide) (by decide) (by decide) rfl,
   by decide, by decide⟩

/-- Scenario S6 for C7: the status is `"running"` at every query for `job-7`; the
same happens when the status is `"failed"` at every query. -/
theorem PollForJobCompletion_bound_witness :
    (∀ i, i < 60 →
      notDone (statusAnswer (scenario "tpl-1" ok200 []) background "job-7" i world0.st) = true) ∧
    ((PollForJobCompletion (scenario "tpl-1" ok200 []) "job-7" background world0).1
        = .ret (none, some ("job " ++ "job-7" ++ " not found")) ∧
      Contains ("job " ++ "job-7" ++ " not found") "job-7" ∧
      ∃ evs, (PollForJobCompletion (scenario "tpl-1" ok200 []) "job-7" background
          world0).2.trace = world0.trace ++ evs ∧
        evs = .Sleep 1000 ::
          pollEvents (scenario "tpl-1" ok200 []) background "job-7" 500 60 world0.st ∧
        queries evs = 60) ∧
    (PollForJobCompletion (scenario "tpl-1" ok200 []) "job-7" background world0).1
        = .ret (none, some "job job-7 not found") ∧
    queries (PollForJobCompletion (scenario "tpl-1" ok200 []) "job-7" background
        world0).2.trace = 60 ∧
    (PollForJobCompletion (scenario "tpl-1" ok200 (List.replicate 60 "failed")) "job-7"
        background world0).1
        = .ret (none, some "job job-7 not found") ∧
    queries (PollForJobCompletion (scenario "tpl-1" ok200 (List.replicate 60 "failed")) "job-7"
        background world0).2.trace = 60 :=
  ⟨by decide,
   (PollForJobCompletion_bound (scenario "tpl-1" ok200 []) "job-7" background world0).2
      (by decide),
   by decide, by decide, by decide, by decide⟩


/-! ## Lemmas on `StartGenerateDocument` -/

theorem initializeRenderJob_trace {c : Env δ σ} {ctx : Context σ}
    {req : InitializeRenderJobRequest δ} {w w' : World δ σ}
    {res : Option InitializeRenderJobResponse × Option Error}
    (h : Documents.InitializeRenderJob c ctx req w = (res, w')) :
    w'.trace = w.trace ++ [.InitializeRenderJob req res] := by
  simp only [Documents.InitializeRenderJob, Prod.mk.injEq] at h
  rw [← h.2, ← h.1]; rfl

theorem startRenderJob_trace {c : Env δ σ} {ctx : Context σ} {jobId : String}
    {req : StartRenderJobRequest} {w w' : World δ σ}
    {res : Option StartRenderJobResponse × Option Error}
    (h : Documents.StartRenderJob c ctx jobId req w = (res, w')) :
    w'.trace = w.trace ++ [.StartRenderJob jobId req res] := by
  simp only [Documents.StartRenderJob, Prod.mk.injEq] at h
  rw [← h.2, ← h.1]; rfl

/-- The last step of `StartGenerateDocument`, in the world `w3` reached after the uploads. -/
theorem StartGenerateDocument_start (c : Env δ σ) (gdProps : GenerateDocumentProps δ)
    (ctx : Context σ) (r : InitializeRenderJobResponse) (w3 : World δ σ) :
    ∃ startRes,
      (match Documents.StartRenderJob c ctx r.JobId gdProps.StartRenderJobRequest w3 with
        | ((_, some err), w) =>
          ((.ret (none, some ("starting render: " ++ err)) :
            Outcome (Option StartRenderJobResponse × Option Error)), w)
        | ((result, none), w) => (.ret (result, none), w)).2.trace
        = w3.trace ++ [.StartRenderJob r.JobId gdProps.StartRenderJobRequest startRes] ∧
      (match Documents.StartRenderJob c ctx r.JobId gdProps.StartRenderJobRequest w3 with
        | ((_, some err), w) =>
          ((.ret (none, some ("starting render: " ++ err)) :
            Outcome (Option StartRenderJobResponse × Option Error)), w)
        | ((result, none), w) => (.ret (result, none), w)).1
        = (match startRes with
          | (_, some err) => .ret (none, some ("starting render: " ++ err))
          | (result, none) => .ret (result, none)) := by
  rcases hs : Documents.StartRenderJob c ctx r.JobId gdProps.StartRenderJobRequest w3
    with ⟨⟨ro, eo⟩, w4⟩
  refine ⟨(ro, eo), ?_, ?_⟩
  · cases eo <;> simp [startRenderJob_trace hs]
  · cases eo <;> simp

/-- The guard after the data upload: when it fails, `StartGenerateDocument` returns
the error tagged `uploading document` in the world in which the upload returned;
neither the template upload nor `StartRenderJob` follows. -/
theorem StartGenerateDocument_data_upload_error (c : Env δ σ)
    (gdProps : GenerateDocumentProps δ) (ctx : Context σ) (w : World δ σ)
    (r : InitializeRenderJobResponse) (w1 w2 : World δ σ) (url : String) (err : Error)
    (hinit : Documents.InitializeRenderJob c ctx gdProps.InitializeRenderJobRequest w
      = ((some r, none), w1))
    (hurl : r.PresignedDataUploadUrl = some url)
    (hfail : UploadToS3WithURL c url (dataProps c gdProps) "application/json" w1
      = (some err, w2)) :
    StartGenerateDocument c gdProps ctx w
      = (.ret (none, some ("uploading document: " ++ err)), w2) := by
  unfold dataProps at hfail
  simp [StartGenerateDocument, hinit, hurl, hfail]

/-- The calls of a run of `StartGenerateDocument` that does not end in an upload error. -/
theorem StartGenerateDocument_run (c : Env δ σ) (gdProps : GenerateDocumentProps δ)
    (ctx : Context σ) (w : World δ σ) (r : InitializeRenderJobResponse) (w1 : World δ σ)
    (hinit : Documents.InitializeRenderJob c ctx gdProps.InitializeRenderJobRequest w
      = ((some r, none), w1))
    (hup : ∀ err, (StartGenerateDocument c gdProps ctx w).1
      ≠ .ret (none, some ("uploading document: " ++ err))) :
    ∃ dataPuts templatePuts startRes,
      (StartGenerateDocument c gdProps ctx w).2.trace = w.trace ++
        [.InitializeRenderJob gdProps.InitializeRenderJobRequest (some r, none)] ++
        dataPuts ++ templatePuts ++
        [.StartRenderJob r.JobId gdProps.StartRenderJobRequest startRes] ∧
      (match r.PresignedDataUploadUrl with
        | none => dataPuts = []
        | some url => ∃ resp, resp.StatusCode = 200 ∧
          dataPuts = [.Put (putRequest url (dataProps c gdProps) "application/json")
            (.ok resp)]) ∧
      (if gdProps.template ≠ [] then
        match r.PresignedTemplateUploadUrl with
        | none => templatePuts = []
        | some url => ∃ resp, resp.StatusCode = 200 ∧
          templatePuts = [.Put (putRequest url (templateProps gdProps) "text/html") (.ok resp)]
       else templatePuts = []) ∧
      (StartGenerateDocument c gdProps ctx w).1
        = (match startRes with
          | (_, some err) => .ret (none, some ("starting render: " ++ err))
          | (result, none) => .ret (result, none)) := by
  have ht1 := initializeRenderJob_trace hinit
  unfold StartGenerateDocument at hup ⊢
  simp only [hinit] at hup ⊢
  -- the data upload
  have hdata : ∃ dataPuts w2,
      (match r.PresignedDataUploadUrl with
        | none => ((none : Option Error), w1)
        | some url => UploadToS3WithURL c url
            { payload := c.Sprint gdProps.InitializeRenderJobRequest.Data,
              payloadLength := (c.Sprint gdProps.InitializeRenderJobRequest.Data).length }
            "application/json" w1) = (none, w2) ∧
      w2.trace = w1.trace ++ dataPuts ∧
      (match r.PresignedDataUploadUrl with
        | none => dataPuts = []
        | some url => ∃ resp, resp.StatusCode = 200 ∧
          dataPuts = [.Put (putRequest url (dataProps c gdProps) "application/json")
            (.ok resp)]) := by
    cases hu : r.PresignedDataUploadUrl with
    | none => exact ⟨[], w1, rfl, by simp, rfl⟩
    | some url =>
      simp only [hu] at hup ⊢
      rcases hd : UploadToS3WithURL c url
        { payload := c.Sprint gdProps.InitializeRenderJobRequest.Data,
          payloadLength := (c.Sprint gdProps.InitializeRenderJobRequest.Data).length }
        "application/json" w1 with ⟨eo, w2⟩
      cases eo with
      | some e =>
        simp only [hd] at hup
        exact absurd rfl (hup e)
      | none =>
        obtain ⟨_, resp, h200, ht⟩ := upload_ok_trace hd
        exact ⟨_, w2, rfl, ht, resp, h200, rfl⟩
  obtain ⟨dataPuts, w2, hd, ht2, hdp⟩ := hdata
  simp only [hd] at hup ⊢
  -- the template upload
  have htmpl : ∃ templatePuts w3,
      (if gdProps.template ≠ [] then
        match (some r : Option InitializeRenderJobResponse) with
        | none => ((.panic : Outcome (Option Error)), w2)
        | some r =>
          match r.PresignedTemplateUploadUrl with
          | none => (.ret none, w2)
          | some url =>
            (.ret (UploadToS3WithURL c url
                { payload := gdProps.template, payloadLength := gdProps.template.length }
                "text/html" w2).1,
              (UploadToS3WithURL c url
                { payload := gdProps.template, payloadLength := gdProps.template.length }
                "text/html" w2).2)
       else (.ret none, w2)) = (.ret none, w3) ∧
      w3.trace = w2.trace ++ templatePuts ∧
      (if gdProps.template ≠ [] then
        match r.PresignedTemplateUploadUrl with
        | none => templatePuts = []
        | some url => ∃ resp, resp.StatusCode = 200 ∧
          templatePuts = [.Put (putRequest url (templateProps gdProps) "text/html") (.ok resp)]
       else templatePuts = []) := by
    by_cases hne : gdProps.template = []
    · exact ⟨[], w2, by simp [hne], by simp, by simp [hne]⟩
    · simp only [ne_eq, hne, not_false_eq_true, if_true] at hup ⊢
      cases hu : r.PresignedTemplateUploadUrl with
      | none => exact ⟨[], w2, rfl, by simp, rfl⟩
      | some url =>
        simp only [hu] at hup ⊢
        rcases hd : UploadToS3WithURL c url
          { payload := gdProps.template, payloadLength := gdProps.template.length }
          "text/html" w2 with ⟨eo, w3⟩
        cases eo with
        | some e =>
          simp only [hd] at hup
          exact absurd rfl (hup e)
        | none =>
          obtain ⟨_, resp, h200, ht⟩ := upload_ok_trace hd
          exact ⟨_, w3, rfl, ht, resp, h200, rfl⟩
  obtain ⟨templatePuts, w3, htm, ht3, htp⟩ := htmpl
  simp only [htm] at hup ⊢
  obtain ⟨startRes, hst, hres⟩ := StartGenerateDocument_start c gdProps ctx r w3
  refine ⟨dataPuts, templatePuts, startRes, ?_, hdp, htp, hres⟩
  rw [hst, ht3, ht2, ht1]

/-- C10 as stated fails: in scenario S5 with the data PUT answered `403 Forbidden`,
the init call succeeds with job `job-7` and both upload URLs and the inline
template is non-empty, yet the run ends in an upload error after the data PUT:
the template is never PUT and `StartRenderJob` is never called. -/
theorem StartGenerateDocument_upload_failure :
    (Documents.InitializeRenderJob (scenario "tpl-1" forbidden403 []) background
        specS5.InitializeRenderJobRequest world0).1
      = (some { JobId := "job-7", PresignedDataUploadUrl := some "https://store/data",
                PresignedTemplateUploadUrl := some "https://store/template" }, none) ∧
    specS5.template ≠ [] ∧
    (StartGenerateDocument (scenario "tpl-1" forbidden403 []) specS5 background world0).1
      = .ret (none, some "uploading document: uploading file: 403 Forbidden") ∧
    (StartGenerateDocument (scenario "tpl-1" forbidden403 []) specS5 background world0).2.trace
      = [.InitializeRenderJob specS5.InitializeRenderJobRequest
            (some { JobId := "job-7", PresignedDataUploadUrl := some "https://store/data",
                    PresignedTemplateUploadUrl := some "https://store/template" }, none),
          .Put (putRequest "https://store/data"
              (dataProps (scenario "tpl-1" forbidden403 []) specS5) "application/json")
            (.ok forbidden403)] ∧
    (StartGenerateDocument (scenario "tpl-1" forbidden403 []) specS5 background
        world0).2.trace.countP Event.isStartRenderJob = 0 ∧
    (StartGenerateDocument (scenario "tpl-1" forbidden403 []) specS5 background
        world0).2.trace.countP Event.isPut = 1 := by
  decide

/-- C10 (amended): for every render spec and every successful `InitializeRenderJob`
response `r`, provided the run does not end in an upload error,
`StartGenerateDocument` makes, after the init call, exactly these calls: one PUT
of the input data (the bytes of `fmt.Sprint` of the data) with content type
`application/json` to the data URL if and only if `r` carries a data upload URL;
then one PUT of the inline template with content type `text/html` to the template
URL if and only if the inline template is non-empty and `r` carries a template
upload URL; then `StartRenderJob` once, with job id `r.JobId` and the start
request of the spec. Its result is the response of that call, or the error of
that call tagged `starting render`. All PUTs were answered `200`. When `r`
carries neither URL, no upload can fail: no PUT is issued and `StartRenderJob` is
called all the same. -/
theorem StartGenerateDocument_uploads (c : Env δ σ) (gdProps : GenerateDocumentProps δ)
    (ctx : Context σ) (w : World δ σ) (r : InitializeRenderJobResponse) (w1 : World δ σ)
    (hinit : Documents.InitializeRenderJob c ctx gdProps.InitializeRenderJobRequest w
      = ((some r, none), w1)) :
    ((∀ err, (StartGenerateDocument c gdProps ctx w).1
        ≠ .ret (none, some ("uploading document: " ++ err))) →
      ∃ dataPuts templatePuts startRes,
        (StartGenerateDocument c gdProps ctx w).2.trace = w.trace ++
          [.InitializeRenderJob gdProps.InitializeRenderJobRequest (some r, none)] ++
          dataPuts ++ templatePuts ++
          [.StartRenderJob r.JobId gdProps.StartRenderJobRequest startRes] ∧
        (match r.PresignedDataUploadUrl with
          | none => dataPuts = []
          | some url => ∃ resp, resp.StatusCode = 200 ∧
            dataPuts = [.Put (putRequest url (dataProps c gdProps) "application/json")
              (.ok resp)]) ∧
        (if gdProps.template ≠ [] then
          match r.PresignedTemplateUploadUrl with
          | none => templatePuts = []
          | some url => ∃ resp, resp.StatusCode = 200 ∧
            templatePuts
              = [.Put (putRequest url (templateProps gdProps) "text/html") (.ok resp)]
         else templatePuts = []) ∧
        (StartGenerateDocument c gdProps ctx w).1
          = (match startRes with
            | (_, some err) => .ret (none, some ("starting render: " ++ err))
            | (result, none) => .ret (result, none))) ∧
    (r.PresignedDataUploadUrl = none → r.PresignedTemplateUploadUrl = none →
      ∃ startRes,
        (StartGenerateDocument c gdProps ctx w).2.trace = w.trace ++
          [.InitializeRenderJob gdProps.InitializeRenderJobRequest (some r, none),
            .StartRenderJob r.JobId gdProps.StartRenderJobRequest startRes] ∧
        (StartGenerateDocument c gdProps ctx w).1
          = (match startRes with
            | (_, some err) => .ret (none, some ("starting render: " ++ err))
            | (result, none) => .ret (result, none))) := by
  refine ⟨StartGenerateDocument_run c gdProps ctx w r w1 hinit, fun hdn htn => ?_⟩
  have ht1 := initializeRenderJob_trace hinit
  obtain ⟨startRes, hst, hres⟩ := StartGenerateDocument_start c gdProps ctx r w1
  refine ⟨startRes, ?_, ?_⟩
  · unfold StartGenerateDocument
    simp only [hinit, hdn, htn]
    by_cases hne : gdProps.template = []
    · simp only [hne, ne_eq, not_true_eq_false, if_false]
      rw [hst, ht1]; simp
    · simp only [hne, ne_eq, not_false_eq_true, if_true]
      rw [hst, ht1]; simp
  · unfold StartGenerateDocument
    simp only [hinit, hdn, htn]
    by_cases hne : gdProps.template = []
    · simp only [hne, ne_eq, not_true_eq_false, if_false]
      exact hres
    · simp only [hne, ne_eq, not_false_eq_true, if_true]
      exact hres

/-- Scenario S5 for the amended C10: both uploads are answered `200`; the data is
PUT as `application/json`, the template as `text/html`, and the job `job-7` is
started. -/
theorem StartGenerateDocument_uploads_witness :
    (∃ dataPuts templatePuts startRes,
      (StartGenerateDocument (scenario "tpl-1" ok200 []) specS5 background world0).2.trace
        = world0.trace ++
          [.InitializeRenderJob specS5.InitializeRenderJobRequest
            (some { JobId := "job-7", PresignedDataUploadUrl := some "https://store/data",
                    PresignedTemplateUploadUrl := some "https://store/template" }, none)] ++
          dataPuts ++ templatePuts ++
          [.StartRenderJob "job-7" specS5.StartRenderJobRequest startRes] ∧
      (∃ resp, resp.StatusCode = 200 ∧
        dataPuts = [.Put (putRequest "https://store/data"
          (dataProps (scenario "tpl-1" ok200 []) specS5) "application/json") (.ok resp)]) ∧
      (if specS5.template ≠ [] then
        ∃ resp, resp.StatusCode = 200 ∧
          templatePuts = [.Put (putRequest "https://store/template" (templateProps specS5)
            "text/html") (.ok resp)]
       else templatePuts = []) ∧
      (StartGenerateDocument (scenario "tpl-1" ok200 []) specS5 background world0).1
        = (match startRes with
          | (_, some err) => .ret (none, some ("starting render: " ++ err))
          | (result, none) => .ret (result, none))) ∧
    (StartGenerateDocument (scenario "tpl-1" ok200 []) specS5 background world0).1
      = .ret (some { JobId := "job-7" }, none) :=
  ⟨(StartGenerateDocument_uploads (scenario "tpl-1" ok200 []) specS5 background world0
      { JobId := "job-7", PresignedDataUploadUrl := some "https://store/data",
        PresignedTemplateUploadUrl := some "https://store/template" }
      (world0.log 0 (.InitializeRenderJob specS5.InitializeRenderJobRequest
        (some { JobId := "job-7", PresignedDataUploadUrl := some "https://store/data",
                PresignedTemplateUploadUrl := some "https://store/template" }, none)))
      rfl).1 (fun err h => by
        have e : (StartGenerateDocument (scenario "tpl-1" ok200 []) specS5 background world0).1
            = .ret (some { JobId := "job-7" }, none) := by decide
        rw [e] at h
        simp at h),
   by decide⟩

/-! ## Cancellation -/

/-- Whatever the context says about the state in which `InitializeTemplateCreation`
returned, `SaveTemplateFromFileStream` goes on to the upload: when the checks of
`UploadToS3WithURL` pass and the URL parses, the PUT is the next call. The upload
is handed no context, so nothing in it can depend on `ctx`. -/
theorem SaveTemplateFromFileStream_put_whatever_context (c : Env δ σ)
    (fsProps : FileStreamProps) (metadata : SaveCreatedTemplateRequestTemplateInfo δ)
    (ctx : Context σ) (w : World δ σ) (r : InitializeTemplateCreationResponse)
    (w1 : World δ σ)
    (hinit : Templates.InitializeTemplateCreation c ctx w = ((some r, none), w1))
    (hlen : 0 < fsProps.payloadLength)
    (hurl : c.parseURL r.PresignedTemplateUploadUrl = none) :
    ∃ rest, (SaveTemplateFromFileStream c fsProps metadata ctx w).2.trace = w.trace ++
      [ .InitializeTemplateCreation (some r, none),
        .Put (putRequest r.PresignedTemplateUploadUrl fsProps "application/zip")
          (c.Do (putRequest r.PresignedTemplateUploadUrl fsProps "application/zip") w1.st).1 ]
      ++ rest := by
  have ht1 := initializeTemplateCreation_trace hinit
  have ht2 := UploadToS3WithURL_put c r.PresignedTemplateUploadUrl fsProps "application/zip"
    w1 (by decide) hlen hurl
  unfold SaveTemplateFromFileStream
  simp only [hinit]
  rcases hup : UploadToS3WithURL c r.PresignedTemplateUploadUrl fsProps "application/zip" w1
    with ⟨eo, w2⟩
  rw [hup] at ht2
  simp only [] at ht2
  cases eo with
  | some e => exact ⟨[], by simp [ht2, ht1]⟩
  | none =>
  simp only []
  rcases hex : Templates.ExtractTemplateFiles c ctx r.TemplateId w2 with ⟨eo, w3⟩
  have ht3 := extractTemplateFiles_trace hex
  cases eo with
  | some e => exact ⟨[.ExtractTemplateFiles r.TemplateId (some e)], by simp [ht3, ht2, ht1]⟩
  | none =>
  simp only []
  rcases hpr : Templates.GenerateTemplatePreviews c ctx r.TemplateId
    { Type_ := metadata.Type_, Data := metadata.SampleData } w3 with ⟨⟨po, eo⟩, w4⟩
  have ht4 := generateTemplatePreviews_trace hpr
  cases eo with
  | some e =>
    exact ⟨[.ExtractTemplateFiles r.TemplateId none,
      .GenerateTemplatePreviews r.TemplateId
        { Type_ := metadata.Type_, Data := metadata.SampleData } (po, some e)],
      by simp [ht4, ht3, ht2, ht1]⟩
  | none =>
  cases po with
  | none =>
    exact ⟨[.ExtractTemplateFiles r.TemplateId none,
      .GenerateTemplatePreviews r.TemplateId
        { Type_ := metadata.Type_, Data := metadata.SampleData } (none, none)],
      by simp [ht4, ht3, ht2, ht1]⟩
  | some pr =>
  simp only []
  rcases hsv : Templates.SaveCreatedTemplate c ctx r.TemplateId
    { TemplateInfo :=
        { Title := metadata.Title, Description := metadata.Description,
          Categories := metadata.Categories, Type_ := metadata.Type_,
          SourceCode := metadata.SourceCode, SampleData := metadata.SampleData },
      PreviewIds := { PngJobId := pr.PngPreview.JobId, PdfJobId := pr.PdfPreview.JobId } }
    w4 with ⟨eo, w5⟩
  have ht5 := saveCreatedTemplate_trace hsv
  refine ⟨[.ExtractTemplateFiles r.TemplateId none,
      .GenerateTemplatePreviews r.TemplateId
        { Type_ := metadata.Type_, Data := metadata.SampleData } (some pr, none),
      .SaveCreatedTemplate r.TemplateId
        { TemplateInfo := metadata,
          PreviewIds := { PngJobId := pr.PngPreview.JobId, PdfJobId := pr.PdfPreview.JobId } }
        eo], ?_⟩
  cases eo <;> simp [ht5, ht4, ht3, ht2, ht1]

/-- C11 fails on the code at this input: the context is not done when
`SaveTemplateFromFileStream` starts and is cancelled as soon as
`InitializeTemplateCreation` has been answered, that is before step 2. The
client honours the context, yet the PUT of step 2 is issued and answered: two
requests reach the outside (the clock reads 2) where C11 allows one. Only step 3,
which is handed the context, stops the run, with the error
`extracting template files: context canceled`. -/
theorem SaveTemplateFromFileStream_put_after_cancel :
    (cancelledAfter 1).Err world0.st = none ∧
    (Templates.InitializeTemplateCreation (clockService ok200) (cancelledAfter 1) world0).2.st
      = 1 ∧
    (cancelledAfter 1).Err 1 = some "context canceled" ∧
    (SaveTemplateFromFileStream (clockService ok200) zip8 metaS1 (cancelledAfter 1) world0).1
      = .ret ("", some "extracting template files: context canceled") ∧
    (SaveTemplateFromFileStream (clockService ok200) zip8 metaS1 (cancelledAfter 1)
        world0).2.trace
      = [ .InitializeTemplateCreation
            (some { TemplateId := "tpl-1", PresignedTemplateUploadUrl := "https://store/upload" },
              none),
          .Put (putRequest "https://store/upload" zip8 "application/zip") (.ok ok200),
          .ExtractTemplateFiles "tpl-1" (some "context canceled") ] ∧
    (SaveTemplateFromFileStream (clockService ok200) zip8 metaS1 (cancelledAfter 1)
        world0).2.st = 2 := by
  decide

/-- The same happens in `UpdateTemplateFromFileStream`: cancelled before step 2,
it still issues the PUT. -/
theorem UpdateTemplateFromFileStream_put_after_cancel :
    (UpdateTemplateFromFileStream (clockService ok200) "tpl-9" zip8 metaS3 (cancelledAfter 1)
        world0).1
      = .ret ("", some "extracting template files: context canceled") ∧
    (UpdateTemplateFromFileStream (clockService ok200) "tpl-9" zip8 metaS3 (cancelledAfter 1)
        world0).2.trace
      = [ .InitializeTemplateCreation
            (some { TemplateId := "tpl-1", PresignedTemplateUploadUrl := "https://store/upload" },
              none),
          .Put (putRequest "https://store/upload" zip8 "application/zip") (.ok ok200),
          .ExtractTemplateFiles "tpl-1" (some "context canceled") ] ∧
    (UpdateTemplateFromFileStream (clockService ok200) "tpl-9" zip8 metaS3 (cancelledAfter 1)
        world0).2.st = 2 := by
  decide

/-- The same happens in `StartGenerateDocument`: cancelled before the data upload,
it still issues both PUTs; `StartRenderJob`, which is handed the context, stops
the run. -/
theorem StartGenerateDocument_puts_after_cancel :
    (StartGenerateDocument (clockService ok200) specS5 (cancelledAfter 1) world0).1
      = .ret (none, some "starting render: context canceled") ∧
    (StartGenerateDocument (clockService ok200) specS5 (cancelledAfter 1) world0).2.trace
      = [ .InitializeRenderJob specS5.InitializeRenderJobRequest
            (some { JobId := "job-7", PresignedDataUploadUrl := some "https://store/data",
                    PresignedTemplateUploadUrl := some "https://store/template" }, none),
          .Put (putRequest "https://store/data" (dataProps (clockService ok200) specS5)
            "application/json") (.ok ok200),
          .Put (putRequest "https://store/template" (templateProps specS5) "text/html")
            (.ok ok200),
          .StartRenderJob "job-7" specS5.StartRenderJobRequest
            (none, some "context canceled") ] ∧
    (StartGenerateDocument (clockService ok200) specS5 (cancelledAfter 1) world0).2.st = 3 := by
  decide

/-- Where the next step is a call of the service client, the cancellation is
honoured: a context cancelled before step 1 ends `SaveTemplateFromFileStream` at
its first call, with no request sent (the clock stays at 0). -/
theorem SaveTemplateFromFileStream_cancelled_at_start :
    (SaveTemplateFromFileStream (clockService ok200) zip8 metaS1 (cancelledAfter 0) world0).1
      = .ret ("", some "initializing template creation: context canceled") ∧
    (SaveTemplateFromFileStream (clockService ok200) zip8 metaS1 (cancelledAfter 0)
        world0).2.trace
      = [.InitializeTemplateCreation (none, some "context canceled")] ∧
    (SaveTemplateFromFileStream (clockService ok200) zip8 metaS1 (cancelledAfter 0)
        world0).2.st = 0 := by
  decide

/-- In `PollForJobCompletion` every request is a call of the service client: a
context cancelled once two status queries have been answered ends the poll at
the third call, which sends nothing (the clock stays at 2). The sleeps take no
context and are slept in full. -/
theorem PollForJobCompletion_cancelled :
    (PollForJobCompletion (clockService ok200) "job-7" (cancelledAfter 2) world0).1
      = .ret (none, some "getting job status: context canceled") ∧
    (PollForJobCompletion (clockService ok200) "job-7" (cancelledAfter 2) world0).2.trace
      = [ .Sleep 1000,
          .GetJobStatus "job-7" (some { Status := some "running", Output := none }, none),
          .Sleep 500,
          .GetJobStatus "job-7" (some { Status := some "running", Output := none }, none),
          .Sleep 500,
          .GetJobStatus "job-7" (none, some "context canceled") ] ∧
    (PollForJobCompletion (clockService ok200) "job-7" (cancelledAfter 2) world0).2.st = 2 := by
  decide

end Pogodoc
